import Mathlib

/-!
Shallow embedding of the Dolos protocol-parameter evolution engine
(`src/ledger/pparams/mod.rs`) and of the redb-backed ledger store
(`src/state/redb/v2.rs`).

Machine integers (`u64`, `u32`, ...) are represented as `Nat`: the code
performs no arithmetic on them (only copying and comparison), so overflow
never matters.  Rust `panic!` / `unimplemented!` / out-of-bounds aborts are
modelled by the `PanicOr` result type below: the Rust functions return the
bare value type with no error channel, so a `.panic` outcome is a process
abort, never a value returned to the caller.
-/

namespace Dolos

/-- Rational number as used by pallas primitives (numerator, denominator). -/
structure RationalNumber where
  numerator : Nat
  denominator : Nat
deriving Repr, DecidableEq

/-- Protocol version pair (major, minor). -/
abbrev ProtocolVersion := Nat × Nat

/-- Extra-entropy nonce; opaque value. -/
abbrev Nonce := Nat

/-- Execution units (memory, steps). -/
structure ExUnits where
  mem : Nat
  steps : Nat
deriving Repr, DecidableEq

/-- Execution prices (price per memory unit, price per step). -/
structure ExUnitPrices where
  mem_price : RationalNumber
  step_price : RationalNumber
deriving Repr, DecidableEq

/-- A script cost model: a list of integer coefficients. -/
abbrev CostModel := List Int

/-- Plutus language tag of the Alonzo-era primitives.  The Alonzo era
supports only PlutusV1 (pallas `primitives::alonzo::Language`). -/
inductive Language where
  | plutusV1
deriving Repr, DecidableEq

instance : BEq Language := ⟨fun a b => decide (a = b)⟩

/-- Alonzo-era cost models: an ordered list of (language, model) pairs. -/
abbrev AlonzoCostMdls := List (Language × CostModel)

/-- Babbage-era cost models (`primitives::babbage::CostMdls`). -/
structure BabbageCostMdls where
  plutus_v1 : Option CostModel
  plutus_v2 : Option CostModel
deriving Repr, DecidableEq

/-- Conway-era cost models (`primitives::conway::CostMdls`). -/
structure ConwayCostMdls where
  plutus_v1 : Option CostModel
  plutus_v2 : Option CostModel
  plutus_v3 : Option CostModel
deriving Repr, DecidableEq

/-- Byron soft-fork rule (three threshold values). -/
structure SoftForkRule where
  init_thd : Nat
  min_thd : Nat
  thd_decrement : Nat
deriving Repr, DecidableEq

/-- Conway pool voting thresholds (`primitives::conway::PoolVotingThresholds`). -/
structure PoolVotingThresholds where
  motion_no_confidence : RationalNumber
  committee_normal : RationalNumber
  committee_no_confidence : RationalNumber
  hard_fork_initiation : RationalNumber
  security_voting_threshold : RationalNumber
deriving Repr, DecidableEq

/-- Conway DRep voting thresholds (`primitives::conway::DRepVotingThresholds`). -/
structure DRepVotingThresholds where
  motion_no_confidence : RationalNumber
  committee_normal : RationalNumber
  committee_no_confidence : RationalNumber
  update_constitution : RationalNumber
  hard_fork_initiation : RationalNumber
  pp_network_group : RationalNumber
  pp_economic_group : RationalNumber
  pp_technical_group : RationalNumber
  pp_governance_group : RationalNumber
  treasury_withdrawal : RationalNumber
deriving Repr, DecidableEq

/-- Byron transaction fee policy (`primitives::byron::TxFeePol`); the code
only inspects the `Variant0` constructor carrying (summand, multiplier). -/
inductive TxFeePol where
  | variant0 (summand : Nat) (multiplier : Nat)
  | other
deriving Repr, DecidableEq

/-! ### Genesis configuration records (the fields the bootstraps read) -/

/-- Byron genesis `block_version_data.tx_fee_policy`. -/
structure ByronTxFeePolicy where
  summand : Nat
  multiplier : Nat
deriving Repr, DecidableEq

/-- Byron genesis `block_version_data`. -/
structure ByronBlockVersionData where
  tx_fee_policy : ByronTxFeePolicy
  max_tx_size : Nat
  script_version : Nat
  slot_duration : Nat
  max_block_size : Nat
  max_header_size : Nat
  max_proposal_size : Nat
  mpc_thd : Nat
  heavy_del_thd : Nat
  update_vote_thd : Nat
  update_proposal_thd : Nat
  update_implicit : Nat
  softfork_rule : SoftForkRule
  unlock_stake_epoch : Nat
deriving Repr, DecidableEq

/-- Byron genesis file (the part read by `bootstrap_byron_pparams`). -/
structure ByronGenesisFile where
  block_version_data : ByronBlockVersionData
deriving Repr, DecidableEq

/-- Shelley genesis `protocol_params`. -/
structure ShelleyGenesisParams where
  protocol_version : ProtocolVersion
  max_block_body_size : Nat
  max_tx_size : Nat
  max_block_header_size : Nat
  key_deposit : Nat
  min_utxo_value : Nat
  min_fee_a : Nat
  min_fee_b : Nat
  pool_deposit : Nat
  n_opt : Nat
  min_pool_cost : Nat
  rho : RationalNumber
  tau : RationalNumber
  e_max : Nat
  a0 : RationalNumber
  decentralisation_param : RationalNumber
  extra_entropy : Nonce
deriving Repr, DecidableEq

/-- Shelley genesis file (the part read by `bootstrap_shelley_pparams`). -/
structure ShelleyGenesisFile where
  protocol_params : ShelleyGenesisParams
deriving Repr, DecidableEq

/-- Alonzo genesis file (the part read by `bootstrap_alonzo_pparams`). -/
structure AlonzoGenesisFile where
  lovelace_per_utxo_word : Nat
  cost_models : AlonzoCostMdls
  execution_prices : ExUnitPrices
  max_tx_ex_units : ExUnits
  max_block_ex_units : ExUnits
  max_value_size : Nat
  collateral_percentage : Nat
  max_collateral_inputs : Nat
deriving Repr, DecidableEq

/-- Conway genesis file (the part read by `bootstrap_conway_pparams`). -/
structure ConwayGenesisFile where
  plutus_v3_cost_model : CostModel
deriving Repr, DecidableEq

/-- The `Genesis` bundle handed to the fold (`pparams/mod.rs`). -/
structure Genesis where
  byron : ByronGenesisFile
  shelley : ShelleyGenesisFile
  alonzo : AlonzoGenesisFile
  conway : ConwayGenesisFile
deriving Repr, DecidableEq

/-! ### Per-era protocol parameter records -/

/-- Byron-era protocol parameters (`pallas applying::utils::ByronProtParams`,
field set as written by `bootstrap_byron_pparams`). -/
structure ByronProtParams where
  block_version : Nat × Nat × Nat
  summand : Nat
  multiplier : Nat
  max_tx_size : Nat
  script_version : Nat
  slot_duration : Nat
  max_block_size : Nat
  max_header_size : Nat
  max_proposal_size : Nat
  mpc_thd : Nat
  heavy_del_thd : Nat
  update_vote_thd : Nat
  update_proposal_thd : Nat
  update_implicit : Nat
  soft_fork_rule : SoftForkRule
  unlock_stake_epoch : Nat
deriving Repr, DecidableEq

/-- Shelley-era protocol parameters. -/
structure ShelleyProtParams where
  protocol_version : ProtocolVersion
  max_block_body_size : Nat
  max_transaction_size : Nat
  max_block_header_size : Nat
  key_deposit : Nat
  min_utxo_value : Nat
  minfee_a : Nat
  minfee_b : Nat
  pool_deposit : Nat
  desired_number_of_stake_pools : Nat
  min_pool_cost : Nat
  expansion_rate : RationalNumber
  treasury_growth_rate : RationalNumber
  maximum_epoch : Nat
  pool_pledge_influence : RationalNumber
  decentralization_constant : RationalNumber
  extra_entropy : Nonce
deriving Repr, DecidableEq

/-- Alonzo-era protocol parameters. -/
structure AlonzoProtParams where
  minfee_a : Nat
  minfee_b : Nat
  max_block_body_size : Nat
  max_transaction_size : Nat
  max_block_header_size : Nat
  key_deposit : Nat
  pool_deposit : Nat
  protocol_version : ProtocolVersion
  min_pool_cost : Nat
  desired_number_of_stake_pools : Nat
  expansion_rate : RationalNumber
  treasury_growth_rate : RationalNumber
  maximum_epoch : Nat
  pool_pledge_influence : RationalNumber
  decentralization_constant : RationalNumber
  extra_entropy : Nonce
  ada_per_utxo_byte : Nat
  cost_models_for_script_languages : AlonzoCostMdls
  execution_costs : ExUnitPrices
  max_tx_ex_units : ExUnits
  max_block_ex_units : ExUnits
  max_value_size : Nat
  collateral_percentage : Nat
  max_collateral_inputs : Nat
deriving Repr, DecidableEq

/-- Babbage-era protocol parameters. -/
structure BabbageProtParams where
  minfee_a : Nat
  minfee_b : Nat
  max_block_body_size : Nat
  max_transaction_size : Nat
  max_block_header_size : Nat
  key_deposit : Nat
  pool_deposit : Nat
  protocol_version : ProtocolVersion
  min_pool_cost : Nat
  desired_number_of_stake_pools : Nat
  ada_per_utxo_byte : Nat
  execution_costs : ExUnitPrices
  max_tx_ex_units : ExUnits
  max_block_ex_units : ExUnits
  max_value_size : Nat
  collateral_percentage : Nat
  max_collateral_inputs : Nat
  expansion_rate : RationalNumber
  treasury_growth_rate : RationalNumber
  maximum_epoch : Nat
  pool_pledge_influence : RationalNumber
  decentralization_constant : RationalNumber
  extra_entropy : Nonce
  cost_models_for_script_languages : BabbageCostMdls
deriving Repr, DecidableEq

/-- Conway-era protocol parameters. -/
structure ConwayProtParams where
  minfee_a : Nat
  minfee_b : Nat
  max_block_body_size : Nat
  max_transaction_size : Nat
  max_block_header_size : Nat
  key_deposit : Nat
  pool_deposit : Nat
  protocol_version : ProtocolVersion
  min_pool_cost : Nat
  desired_number_of_stake_pools : Nat
  ada_per_utxo_byte : Nat
  execution_costs : ExUnitPrices
  max_tx_ex_units : ExUnits
  max_block_ex_units : ExUnits
  max_value_size : Nat
  collateral_percentage : Nat
  max_collateral_inputs : Nat
  expansion_rate : RationalNumber
  treasury_growth_rate : RationalNumber
  maximum_epoch : Nat
  pool_pledge_influence : RationalNumber
  cost_models_for_script_languages : ConwayCostMdls
  pool_voting_thresholds : PoolVotingThresholds
  drep_voting_thresholds : DRepVotingThresholds
  min_committee_size : Nat
  committee_term_limit : Nat
  governance_action_validity_period : Nat
  governance_action_deposit : Nat
  drep_deposit : Nat
  drep_inactivity_period : Nat
  minfee_refscript_cost_per_byte : RationalNumber
deriving Repr, DecidableEq

/-- Tagged union over eras (`pallas applying::utils::MultiEraProtocolParameters`). -/
inductive MultiEraProtocolParameters where
  | byron (p : ByronProtParams)
  | shelley (p : ShelleyProtParams)
  | alonzo (p : AlonzoProtParams)
  | babbage (p : BabbageProtParams)
  | conway (p : ConwayProtParams)
deriving Repr, DecidableEq

/-- Era discriminant of the union. -/
inductive EraTag where
  | byron | shelley | alonzo | babbage | conway
deriving Repr, DecidableEq

/-- Era tag of a parameter union value. -/
def eraOf : MultiEraProtocolParameters → EraTag
  | .byron _ => .byron
  | .shelley _ => .shelley
  | .alonzo _ => .alonzo
  | .babbage _ => .babbage
  | .conway _ => .conway

/-- `MultiEraProtocolParameters::protocol_version()`: the major protocol
version recorded in the parameters (for Byron, the head of `block_version`). -/
def MultiEraProtocolParameters.protocol_version : MultiEraProtocolParameters → Nat
  | .byron p => p.block_version.1
  | .shelley p => p.protocol_version.1
  | .alonzo p => p.protocol_version.1
  | .babbage p => p.protocol_version.1
  | .conway p => p.protocol_version.1

/-! ### Genesis bootstrap functions (`pparams/mod.rs` lines 21-241) -/

/-- `bootstrap_byron_pparams`. -/
def bootstrap_byron_pparams (byron : ByronGenesisFile) : ByronProtParams where
  block_version := (0, 0, 0)
  summand := byron.block_version_data.tx_fee_policy.summand
  multiplier := byron.block_version_data.tx_fee_policy.multiplier
  max_tx_size := byron.block_version_data.max_tx_size
  script_version := byron.block_version_data.script_version
  slot_duration := byron.block_version_data.slot_duration
  max_block_size := byron.block_version_data.max_block_size
  max_header_size := byron.block_version_data.max_header_size
  max_proposal_size := byron.block_version_data.max_proposal_size
  mpc_thd := byron.block_version_data.mpc_thd
  heavy_del_thd := byron.block_version_data.heavy_del_thd
  update_vote_thd := byron.block_version_data.update_vote_thd
  update_proposal_thd := byron.block_version_data.update_proposal_thd
  update_implicit := byron.block_version_data.update_implicit
  soft_fork_rule := byron.block_version_data.softfork_rule
  unlock_stake_epoch := byron.block_version_data.unlock_stake_epoch

/-- `bootstrap_shelley_pparams`. -/
def bootstrap_shelley_pparams (shelley : ShelleyGenesisFile) : ShelleyProtParams where
  protocol_version := shelley.protocol_params.protocol_version
  max_block_body_size := shelley.protocol_params.max_block_body_size
  max_transaction_size := shelley.protocol_params.max_tx_size
  max_block_header_size := shelley.protocol_params.max_block_header_size
  key_deposit := shelley.protocol_params.key_deposit
  min_utxo_value := shelley.protocol_params.min_utxo_value
  minfee_a := shelley.protocol_params.min_fee_a
  minfee_b := shelley.protocol_params.min_fee_b
  pool_deposit := shelley.protocol_params.pool_deposit
  desired_number_of_stake_pools := shelley.protocol_params.n_opt
  min_pool_cost := shelley.protocol_params.min_pool_cost
  expansion_rate := shelley.protocol_params.rho
  treasury_growth_rate := shelley.protocol_params.tau
  maximum_epoch := shelley.protocol_params.e_max
  pool_pledge_influence := shelley.protocol_params.a0
  decentralization_constant := shelley.protocol_params.decentralisation_param
  extra_entropy := shelley.protocol_params.extra_entropy

/-- `bootstrap_alonzo_pparams`: inherit from Shelley, bootstrap the new
fields from the Alonzo genesis. -/
def bootstrap_alonzo_pparams (previous : ShelleyProtParams)
    (genesis : AlonzoGenesisFile) : AlonzoProtParams where
  minfee_a := previous.minfee_a
  minfee_b := previous.minfee_b
  max_block_body_size := previous.max_block_body_size
  max_transaction_size := previous.max_transaction_size
  max_block_header_size := previous.max_block_header_size
  key_deposit := previous.key_deposit
  pool_deposit := previous.pool_deposit
  protocol_version := previous.protocol_version
  min_pool_cost := previous.min_pool_cost
  desired_number_of_stake_pools := previous.desired_number_of_stake_pools
  expansion_rate := previous.expansion_rate
  treasury_growth_rate := previous.treasury_growth_rate
  maximum_epoch := previous.maximum_epoch
  pool_pledge_influence := previous.pool_pledge_influence
  decentralization_constant := previous.decentralization_constant
  extra_entropy := previous.extra_entropy
  ada_per_utxo_byte := genesis.lovelace_per_utxo_word
  cost_models_for_script_languages := genesis.cost_models
  execution_costs := genesis.execution_prices
  max_tx_ex_units := genesis.max_tx_ex_units
  max_block_ex_units := genesis.max_block_ex_units
  max_value_size := genesis.max_value_size
  collateral_percentage := genesis.collateral_percentage
  max_collateral_inputs := genesis.max_collateral_inputs

/-- `bootstrap_babbage_pparams`: inherit everything from Alonzo; the cost
model list is restructured, keeping the first PlutusV1 entry. -/
def bootstrap_babbage_pparams (previous : AlonzoProtParams) : BabbageProtParams where
  minfee_a := previous.minfee_a
  minfee_b := previous.minfee_b
  max_block_body_size := previous.max_block_body_size
  max_transaction_size := previous.max_transaction_size
  max_block_header_size := previous.max_block_header_size
  key_deposit := previous.key_deposit
  pool_deposit := previous.pool_deposit
  protocol_version := previous.protocol_version
  min_pool_cost := previous.min_pool_cost
  desired_number_of_stake_pools := previous.desired_number_of_stake_pools
  ada_per_utxo_byte := previous.ada_per_utxo_byte
  execution_costs := previous.execution_costs
  max_tx_ex_units := previous.max_tx_ex_units
  max_block_ex_units := previous.max_block_ex_units
  max_value_size := previous.max_value_size
  collateral_percentage := previous.collateral_percentage
  max_collateral_inputs := previous.max_collateral_inputs
  expansion_rate := previous.expansion_rate
  treasury_growth_rate := previous.treasury_growth_rate
  maximum_epoch := previous.maximum_epoch
  pool_pledge_influence := previous.pool_pledge_influence
  decentralization_constant := previous.decentralization_constant
  extra_entropy := previous.extra_entropy
  cost_models_for_script_languages :=
    { plutus_v1 :=
        ((previous.cost_models_for_script_languages.filter
          (fun kv => kv.1 == Language.plutusV1)).map (fun kv => kv.2)).head?
      plutus_v2 := none }

/-- `bootstrap_conway_pparams`: inherit from Babbage, bootstrap the PlutusV3
cost model from the Conway genesis, and leave the governance fields at
fixed placeholder defaults (the source marks these TODO). -/
def bootstrap_conway_pparams (previous : BabbageProtParams)
    (genesis : ConwayGenesisFile) : ConwayProtParams where
  minfee_a := previous.minfee_a
  minfee_b := previous.minfee_b
  max_block_body_size := previous.max_block_body_size
  max_transaction_size := previous.max_transaction_size
  max_block_header_size := previous.max_block_header_size
  key_deposit := previous.key_deposit
  pool_deposit := previous.pool_deposit
  protocol_version := previous.protocol_version
  min_pool_cost := previous.min_pool_cost
  desired_number_of_stake_pools := previous.desired_number_of_stake_pools
  ada_per_utxo_byte := previous.ada_per_utxo_byte
  execution_costs := previous.execution_costs
  max_tx_ex_units := previous.max_tx_ex_units
  max_block_ex_units := previous.max_block_ex_units
  max_value_size := previous.max_value_size
  collateral_percentage := previous.collateral_percentage
  max_collateral_inputs := previous.max_collateral_inputs
  expansion_rate := previous.expansion_rate
  treasury_growth_rate := previous.treasury_growth_rate
  maximum_epoch := previous.maximum_epoch
  pool_pledge_influence := previous.pool_pledge_influence
  cost_models_for_script_languages :=
    { plutus_v1 := previous.cost_models_for_script_languages.plutus_v1
      plutus_v2 := previous.cost_models_for_script_languages.plutus_v2
      plutus_v3 := some genesis.plutus_v3_cost_model }
  pool_voting_thresholds :=
    { motion_no_confidence := ⟨0, 1⟩
      committee_normal := ⟨0, 1⟩
      committee_no_confidence := ⟨0, 1⟩
      hard_fork_initiation := ⟨0, 1⟩
      security_voting_threshold := ⟨0, 1⟩ }
  drep_voting_thresholds :=
    { motion_no_confidence := ⟨0, 1⟩
      committee_normal := ⟨0, 1⟩
      committee_no_confidence := ⟨0, 1⟩
      update_constitution := ⟨0, 1⟩
      hard_fork_initiation := ⟨0, 1⟩
      pp_network_group := ⟨0, 1⟩
      pp_economic_group := ⟨0, 1⟩
      pp_technical_group := ⟨0, 1⟩
      pp_governance_group := ⟨0, 1⟩
      treasury_withdrawal := ⟨0, 1⟩ }
  min_committee_size := 0
  committee_term_limit := 0
  governance_action_validity_period := 0
  governance_action_deposit := 0
  drep_deposit := 0
  drep_inactivity_period := 0
  minfee_refscript_cost_per_byte := ⟨0, 1⟩

/-! ### Update proposals

`pallas traverse::MultiEraUpdate` is an external dependency; the spec treats
it as "an opaque per-era update proposal ... exposing accessor queries of the
shape: first proposed value of field F under era-compatible encoding variant
V, returning Option value".  We model it as a record that holds, for each
(field, encoding variant) pair appearing in the source's per-era tables, the
optional value visible through that encoding; the combined accessors below
realise the declared try-order. -/

/-- Encoding-era tag of a `MultiEraUpdate` (pallas variants `Byron`,
`AlonzoCompatible`, `Babbage`, `Conway`). -/
inductive UpdateEra where
  | byron | alonzoCompatible | babbage | conway
deriving Repr, DecidableEq

/-- Modelled from the spec: the opaque `MultiEraUpdate` with its per-field,
per-encoding-variant accessor results (`ac_` fields are the values visible
through the `AlonzoCompatible` encoding, `bab_` through the `Babbage`
encoding, `con_` through the `Conway` encoding, `byron_` through the Byron
encoding), plus its era tag and recorded epoch. -/
structure MultiEraUpdate where
  era : UpdateEra
  epoch : Nat
  ac_minfee_a : Option Nat := none
  bab_minfee_a : Option Nat := none
  ac_minfee_b : Option Nat := none
  bab_minfee_b : Option Nat := none
  ac_max_block_body_size : Option Nat := none
  bab_max_block_body_size : Option Nat := none
  ac_max_transaction_size : Option Nat := none
  bab_max_transaction_size : Option Nat := none
  ac_max_block_header_size : Option Nat := none
  bab_max_block_header_size : Option Nat := none
  ac_key_deposit : Option Nat := none
  bab_key_deposit : Option Nat := none
  ac_pool_deposit : Option Nat := none
  bab_pool_deposit : Option Nat := none
  ac_desired_number_of_stake_pools : Option Nat := none
  bab_desired_number_of_stake_pools : Option Nat := none
  ac_protocol_version : Option ProtocolVersion := none
  bab_protocol_version : Option ProtocolVersion := none
  ac_min_pool_cost : Option Nat := none
  bab_min_pool_cost : Option Nat := none
  ac_ada_per_utxo_byte : Option Nat := none
  bab_ada_per_utxo_byte : Option Nat := none
  ac_cost_models_for_script_languages : Option AlonzoCostMdls := none
  bab_cost_models_for_script_languages : Option BabbageCostMdls := none
  con_cost_models_for_script_languages : Option ConwayCostMdls := none
  ac_execution_costs : Option ExUnitPrices := none
  bab_execution_costs : Option ExUnitPrices := none
  ac_max_tx_ex_units : Option ExUnits := none
  bab_max_tx_ex_units : Option ExUnits := none
  ac_max_block_ex_units : Option ExUnits := none
  bab_max_block_ex_units : Option ExUnits := none
  ac_max_value_size : Option Nat := none
  bab_max_value_size : Option Nat := none
  ac_collateral_percentage : Option Nat := none
  bab_collateral_percentage : Option Nat := none
  ac_max_collateral_inputs : Option Nat := none
  bab_max_collateral_inputs : Option Nat := none
  ac_expansion_rate : Option RationalNumber := none
  bab_expansion_rate : Option RationalNumber := none
  ac_treasury_growth_rate : Option RationalNumber := none
  bab_treasury_growth_rate : Option RationalNumber := none
  ac_pool_pledge_influence : Option RationalNumber := none
  bab_pool_pledge_influence : Option RationalNumber := none
  ac_decentralization_constant : Option RationalNumber := none
  ac_extra_entropy : Option Nonce := none
  byron_proposed_block_version : Option (Nat × Nat × Nat) := none
  byron_proposed_fee_policy : Option TxFeePol := none
  byron_proposed_max_tx_size : Option Nat := none
deriving Repr, DecidableEq

namespace MultiEraUpdate

/-- Modelled from the spec: accessor trying the `AlonzoCompatible` encoding
first, then the `Babbage` encoding; the first present value wins. -/
def firstAB (ac bab : Option α) : Option α :=
  match ac with
  | some v => some v
  | none => bab

/-- `first_proposed_minfee_a_alonzocompatible_babbage`. -/
def first_proposed_minfee_a_ab (u : MultiEraUpdate) : Option Nat :=
  firstAB u.ac_minfee_a u.bab_minfee_a

/-- `first_proposed_minfee_b_alonzocompatible_babbage`. -/
def first_proposed_minfee_b_ab (u : MultiEraUpdate) : Option Nat :=
  firstAB u.ac_minfee_b u.bab_minfee_b

/-- `first_proposed_max_block_body_size_alonzocompatible_babbage`. -/
def first_proposed_max_block_body_size_ab (u : MultiEraUpdate) : Option Nat :=
  firstAB u.ac_max_block_body_size u.bab_max_block_body_size

/-- `first_proposed_max_transaction_size_alonzocompatible_babbage`. -/
def first_proposed_max_transaction_size_ab (u : MultiEraUpdate) : Option Nat :=
  firstAB u.ac_max_transaction_size u.bab_max_transaction_size

/-- `first_proposed_max_block_header_size_alonzocompatible_babbage`. -/
def first_proposed_max_block_header_size_ab (u : MultiEraUpdate) : Option Nat :=
  firstAB u.ac_max_block_header_size u.bab_max_block_header_size

/-- `first_proposed_key_deposit_alonzocompatible_babbage`. -/
def first_proposed_key_deposit_ab (u : MultiEraUpdate) : Option Nat :=
  firstAB u.ac_key_deposit u.bab_key_deposit

/-- `first_proposed_pool_deposit_alonzocompatible_babbage`. -/
def first_proposed_pool_deposit_ab (u : MultiEraUpdate) : Option Nat :=
  firstAB u.ac_pool_deposit u.bab_pool_deposit

/-- `first_proposed_desired_number_of_stake_pools_alonzocompatible_babbage`. -/
def first_proposed_desired_number_of_stake_pools_ab (u : MultiEraUpdate) : Option Nat :=
  firstAB u.ac_desired_number_of_stake_pools u.bab_desired_number_of_stake_pools

/-- `first_proposed_protocol_version_alonzocompatible_babbage`. -/
def first_proposed_protocol_version_ab (u : MultiEraUpdate) : Option ProtocolVersion :=
  firstAB u.ac_protocol_version u.bab_protocol_version

/-- `first_proposed_min_pool_cost_alonzocompatible_babbage`. -/
def first_proposed_min_pool_cost_ab (u : MultiEraUpdate) : Option Nat :=
  firstAB u.ac_min_pool_cost u.bab_min_pool_cost

/-- `first_proposed_ada_per_utxo_byte_alonzocompatible_babbage`. -/
def first_proposed_ada_per_utxo_byte_ab (u : MultiEraUpdate) : Option Nat :=
  firstAB u.ac_ada_per_utxo_byte u.bab_ada_per_utxo_byte

/-- `first_proposed_cost_models_for_script_languages_alonzocompatible`. -/
def first_proposed_cost_models_ac (u : MultiEraUpdate) : Option AlonzoCostMdls :=
  u.ac_cost_models_for_script_languages

/-- `first_proposed_cost_models_for_script_languages_babbage`. -/
def first_proposed_cost_models_bab (u : MultiEraUpdate) : Option BabbageCostMdls :=
  u.bab_cost_models_for_script_languages

/-- `first_proposed_cost_models_for_script_languages_conway`. -/
def first_proposed_cost_models_con (u : MultiEraUpdate) : Option ConwayCostMdls :=
  u.con_cost_models_for_script_languages

/-- `first_proposed_execution_costs_alonzocompatible_babbage`. -/
def first_proposed_execution_costs_ab (u : MultiEraUpdate) : Option ExUnitPrices :=
  firstAB u.ac_execution_costs u.bab_execution_costs

/-- `first_proposed_max_tx_ex_units_alonzocompatible_babbage`. -/
def first_proposed_max_tx_ex_units_ab (u : MultiEraUpdate) : Option ExUnits :=
  firstAB u.ac_max_tx_ex_units u.bab_max_tx_ex_units

/-- `first_proposed_max_block_ex_units_alonzocompatible_babbage`. -/
def first_proposed_max_block_ex_units_ab (u : MultiEraUpdate) : Option ExUnits :=
  firstAB u.ac_max_block_ex_units u.bab_max_block_ex_units

/-- `first_proposed_max_value_size_alonzocompatible_babbage`. -/
def first_proposed_max_value_size_ab (u : MultiEraUpdate) : Option Nat :=
  firstAB u.ac_max_value_size u.bab_max_value_size

/-- `first_proposed_collateral_percentage_alonzocompatible_babbage`. -/
def first_proposed_collateral_percentage_ab (u : MultiEraUpdate) : Option Nat :=
  firstAB u.ac_collateral_percentage u.bab_collateral_percentage

/-- `first_proposed_max_collateral_inputs_alonzocompatible_babbage`. -/
def first_proposed_max_collateral_inputs_ab (u : MultiEraUpdate) : Option Nat :=
  firstAB u.ac_max_collateral_inputs u.bab_max_collateral_inputs

/-- `first_proposed_expansion_rate_alonzocompatible_babbage`. -/
def first_proposed_expansion_rate_ab (u : MultiEraUpdate) : Option RationalNumber :=
  firstAB u.ac_expansion_rate u.bab_expansion_rate

/-- `first_proposed_treasury_growth_rate_alonzocompatible_babbage`. -/
def first_proposed_treasury_growth_rate_ab (u : MultiEraUpdate) : Option RationalNumber :=
  firstAB u.ac_treasury_growth_rate u.bab_treasury_growth_rate

/-- `first_proposed_pool_pledge_influence_alonzocompatible_babbage`. -/
def first_proposed_pool_pledge_influence_ab (u : MultiEraUpdate) : Option RationalNumber :=
  firstAB u.ac_pool_pledge_influence u.bab_pool_pledge_influence

/-- `first_proposed_decentralization_constant_alonzocompatible`. -/
def first_proposed_decentralization_constant_ac (u : MultiEraUpdate) : Option RationalNumber :=
  u.ac_decentralization_constant

/-- `first_proposed_extra_entropy_alonzocompatible`. -/
def first_proposed_extra_entropy_ac (u : MultiEraUpdate) : Option Nonce :=
  u.ac_extra_entropy

end MultiEraUpdate

/-! ### Per-era update application (`apply_param_update`, lines 243-416)

The Rust macro expands, for each declared field, to
`if let Some(new) = update.first_proposed_FIELD_VARIANTS() { pparams.FIELD = new }`.
The fields are pairwise distinct, so the sequence of conditional assignments
equals a single record update taking, per field, the accessor value when
present and the old value otherwise (`Option.getD`). -/

open MultiEraUpdate in
/-- `update_shelley_pparams` (macro expansion for `ShelleyProtParams`). -/
def update_shelley_pparams (p : ShelleyProtParams) (u : MultiEraUpdate) :
    ShelleyProtParams :=
  { p with
    minfee_a := (first_proposed_minfee_a_ab u).getD p.minfee_a
    minfee_b := (first_proposed_minfee_b_ab u).getD p.minfee_b
    max_block_body_size := (first_proposed_max_block_body_size_ab u).getD p.max_block_body_size
    max_transaction_size := (first_proposed_max_transaction_size_ab u).getD p.max_transaction_size
    max_block_header_size := (first_proposed_max_block_header_size_ab u).getD p.max_block_header_size
    key_deposit := (first_proposed_key_deposit_ab u).getD p.key_deposit
    pool_deposit := (first_proposed_pool_deposit_ab u).getD p.pool_deposit
    desired_number_of_stake_pools :=
      (first_proposed_desired_number_of_stake_pools_ab u).getD p.desired_number_of_stake_pools
    protocol_version := (first_proposed_protocol_version_ab u).getD p.protocol_version
    min_pool_cost := (first_proposed_min_pool_cost_ab u).getD p.min_pool_cost
    expansion_rate := (first_proposed_expansion_rate_ab u).getD p.expansion_rate
    treasury_growth_rate := (first_proposed_treasury_growth_rate_ab u).getD p.treasury_growth_rate
    pool_pledge_influence := (first_proposed_pool_pledge_influence_ab u).getD p.pool_pledge_influence
    decentralization_constant :=
      (first_proposed_decentralization_constant_ac u).getD p.decentralization_constant
    extra_entropy := (first_proposed_extra_entropy_ac u).getD p.extra_entropy }

open MultiEraUpdate in
/-- `update_alonzo_pparams` (macro expansion for `AlonzoProtParams`). -/
def update_alonzo_pparams (p : AlonzoProtParams) (u : MultiEraUpdate) :
    AlonzoProtParams :=
  { p with
    minfee_a := (first_proposed_minfee_a_ab u).getD p.minfee_a
    minfee_b := (first_proposed_minfee_b_ab u).getD p.minfee_b
    max_block_body_size := (first_proposed_max_block_body_size_ab u).getD p.max_block_body_size
    max_transaction_size := (first_proposed_max_transaction_size_ab u).getD p.max_transaction_size
    max_block_header_size := (first_proposed_max_block_header_size_ab u).getD p.max_block_header_size
    key_deposit := (first_proposed_key_deposit_ab u).getD p.key_deposit
    pool_deposit := (first_proposed_pool_deposit_ab u).getD p.pool_deposit
    desired_number_of_stake_pools :=
      (first_proposed_desired_number_of_stake_pools_ab u).getD p.desired_number_of_stake_pools
    protocol_version := (first_proposed_protocol_version_ab u).getD p.protocol_version
    min_pool_cost := (first_proposed_min_pool_cost_ab u).getD p.min_pool_cost
    ada_per_utxo_byte := (first_proposed_ada_per_utxo_byte_ab u).getD p.ada_per_utxo_byte
    cost_models_for_script_languages :=
      (first_proposed_cost_models_ac u).getD p.cost_models_for_script_languages
    execution_costs := (first_proposed_execution_costs_ab u).getD p.execution_costs
    max_tx_ex_units := (first_proposed_max_tx_ex_units_ab u).getD p.max_tx_ex_units
    max_block_ex_units := (first_proposed_max_block_ex_units_ab u).getD p.max_block_ex_units
    max_value_size := (first_proposed_max_value_size_ab u).getD p.max_value_size
    collateral_percentage := (first_proposed_collateral_percentage_ab u).getD p.collateral_percentage
    max_collateral_inputs := (first_proposed_max_collateral_inputs_ab u).getD p.max_collateral_inputs
    expansion_rate := (first_proposed_expansion_rate_ab u).getD p.expansion_rate
    treasury_growth_rate := (first_proposed_treasury_growth_rate_ab u).getD p.treasury_growth_rate
    pool_pledge_influence := (first_proposed_pool_pledge_influence_ab u).getD p.pool_pledge_influence
    decentralization_constant :=
      (first_proposed_decentralization_constant_ac u).getD p.decentralization_constant
    extra_entropy := (first_proposed_extra_entropy_ac u).getD p.extra_entropy }

open MultiEraUpdate in
/-- `update_babbage_pparams` (macro expansion for `BabbageProtParams`). -/
def update_babbage_pparams (p : BabbageProtParams) (u : MultiEraUpdate) :
    BabbageProtParams :=
  { p with
    minfee_a := (first_proposed_minfee_a_ab u).getD p.minfee_a
    minfee_b := (first_proposed_minfee_b_ab u).getD p.minfee_b
    max_block_body_size := (first_proposed_max_block_body_size_ab u).getD p.max_block_body_size
    max_transaction_size := (first_proposed_max_transaction_size_ab u).getD p.max_transaction_size
    max_block_header_size := (first_proposed_max_block_header_size_ab u).getD p.max_block_header_size
    key_deposit := (first_proposed_key_deposit_ab u).getD p.key_deposit
    pool_deposit := (first_proposed_pool_deposit_ab u).getD p.pool_deposit
    desired_number_of_stake_pools :=
      (first_proposed_desired_number_of_stake_pools_ab u).getD p.desired_number_of_stake_pools
    protocol_version := (first_proposed_protocol_version_ab u).getD p.protocol_version
    min_pool_cost := (first_proposed_min_pool_cost_ab u).getD p.min_pool_cost
    ada_per_utxo_byte := (first_proposed_ada_per_utxo_byte_ab u).getD p.ada_per_utxo_byte
    cost_models_for_script_languages :=
      (first_proposed_cost_models_bab u).getD p.cost_models_for_script_languages
    execution_costs := (first_proposed_execution_costs_ab u).getD p.execution_costs
    max_tx_ex_units := (first_proposed_max_tx_ex_units_ab u).getD p.max_tx_ex_units
    max_block_ex_units := (first_proposed_max_block_ex_units_ab u).getD p.max_block_ex_units
    max_value_size := (first_proposed_max_value_size_ab u).getD p.max_value_size
    collateral_percentage := (first_proposed_collateral_percentage_ab u).getD p.collateral_percentage
    max_collateral_inputs := (first_proposed_max_collateral_inputs_ab u).getD p.max_collateral_inputs
    expansion_rate := (first_proposed_expansion_rate_ab u).getD p.expansion_rate
    treasury_growth_rate := (first_proposed_treasury_growth_rate_ab u).getD p.treasury_growth_rate
    pool_pledge_influence := (first_proposed_pool_pledge_influence_ab u).getD p.pool_pledge_influence
    decentralization_constant :=
      (first_proposed_decentralization_constant_ac u).getD p.decentralization_constant
    extra_entropy := (first_proposed_extra_entropy_ac u).getD p.extra_entropy }

open MultiEraUpdate in
/-- `update_conway_pparams` (macro expansion for `ConwayProtParams`; the
governance fields are commented out in the source, hence untouched). -/
def update_conway_pparams (p : ConwayProtParams) (u : MultiEraUpdate) :
    ConwayProtParams :=
  { p with
    minfee_a := (first_proposed_minfee_a_ab u).getD p.minfee_a
    minfee_b := (first_proposed_minfee_b_ab u).getD p.minfee_b
    max_block_body_size := (first_proposed_max_block_body_size_ab u).getD p.max_block_body_size
    max_transaction_size := (first_proposed_max_transaction_size_ab u).getD p.max_transaction_size
    max_block_header_size := (first_proposed_max_block_header_size_ab u).getD p.max_block_header_size
    key_deposit := (first_proposed_key_deposit_ab u).getD p.key_deposit
    pool_deposit := (first_proposed_pool_deposit_ab u).getD p.pool_deposit
    desired_number_of_stake_pools :=
      (first_proposed_desired_number_of_stake_pools_ab u).getD p.desired_number_of_stake_pools
    protocol_version := (first_proposed_protocol_version_ab u).getD p.protocol_version
    min_pool_cost := (first_proposed_min_pool_cost_ab u).getD p.min_pool_cost
    ada_per_utxo_byte := (first_proposed_ada_per_utxo_byte_ab u).getD p.ada_per_utxo_byte
    cost_models_for_script_languages :=
      (first_proposed_cost_models_con u).getD p.cost_models_for_script_languages
    execution_costs := (first_proposed_execution_costs_ab u).getD p.execution_costs
    max_tx_ex_units := (first_proposed_max_tx_ex_units_ab u).getD p.max_tx_ex_units
    max_block_ex_units := (first_proposed_max_block_ex_units_ab u).getD p.max_block_ex_units
    max_value_size := (first_proposed_max_value_size_ab u).getD p.max_value_size
    collateral_percentage := (first_proposed_collateral_percentage_ab u).getD p.collateral_percentage
    max_collateral_inputs := (first_proposed_max_collateral_inputs_ab u).getD p.max_collateral_inputs
    expansion_rate := (first_proposed_expansion_rate_ab u).getD p.expansion_rate
    treasury_growth_rate := (first_proposed_treasury_growth_rate_ab u).getD p.treasury_growth_rate
    pool_pledge_influence := (first_proposed_pool_pledge_influence_ab u).getD p.pool_pledge_influence }

/-- `apply_param_update`'s Byron arm: block version, fee policy (only the
`Variant0` constructor is matched), max tx size. -/
def update_byron_pparams (p : ByronProtParams) (u : MultiEraUpdate) :
    ByronProtParams :=
  let p :=
    match u.byron_proposed_block_version with
    | some new => { p with block_version := new }
    | none => p
  let p :=
    match u.byron_proposed_fee_policy with
    | some (.variant0 summand multiplier) =>
        { p with summand := summand, multiplier := multiplier }
    | _ => p
  match u.byron_proposed_max_tx_size with
  | some new => { p with max_tx_size := new }
  | none => p

/-- `apply_param_update` (lines 373-416): dispatch on the current era
variant and apply the era's field updates; every arm rebuilds the same
variant. -/
def apply_param_update (current : MultiEraProtocolParameters)
    (update : MultiEraUpdate) : MultiEraProtocolParameters :=
  match current with
  | .byron p => .byron (update_byron_pparams p update)
  | .shelley p => .shelley (update_shelley_pparams p update)
  | .alonzo p => .alonzo (update_alonzo_pparams p update)
  | .babbage p => .babbage (update_babbage_pparams p update)
  | .conway p => .conway (update_conway_pparams p update)

/-! ### Panic model and the hard-fork transition table -/

/-- Outcome of a Rust computation whose only failure mode is a panic.
The Rust functions (`advance_hardfork`, `fold_pparams`) return the bare
value type — they have no `Result` error channel — so `.panic` models a
process abort (`unimplemented!`, index out of bounds), never a structured
error value returned to the caller. -/
inductive PanicOr (α : Type u) where
  | panic (msg : String)
  | ok (v : α)
deriving Repr, DecidableEq

/-- Panic message of `advance_hardfork`'s catch-all arm. -/
def hardforkPanicMsg : String := "not implemented: dont know how to handle hardfork"

/-- Panic message of the out-of-bounds index in `fold_pparams` (`&updates[0]`
on an empty slice). -/
def indexPanicMsg : String := "index out of bounds: the len is 0 but the index is 0"

/-- `advance_hardfork` (lines 418-468): one protocol-version step keyed on
(current era variant, next protocol version); unmatched pairs hit the Rust
`unimplemented!` panic. -/
def advance_hardfork (current : MultiEraProtocolParameters) (genesis : Genesis)
    (next_protocol : Nat) : PanicOr MultiEraProtocolParameters :=
  match current with
  | .byron current =>
      if next_protocol = 1 then .ok (.byron current)
      else if next_protocol = 2 then
        .ok (.shelley (bootstrap_shelley_pparams genesis.shelley))
      else .panic hardforkPanicMsg
  | .shelley current =>
      if next_protocol < 5 then .ok (.shelley current)
      else if next_protocol = 5 then
        .ok (.alonzo (bootstrap_alonzo_pparams current genesis.alonzo))
      else .panic hardforkPanicMsg
  | .alonzo current =>
      if next_protocol = 6 then .ok (.alonzo current)
      else if next_protocol = 7 then
        .ok (.babbage (bootstrap_babbage_pparams current))
      else .panic hardforkPanicMsg
  | .babbage current =>
      if next_protocol = 8 then .ok (.babbage current)
      else if next_protocol = 9 then
        .ok (.conway (bootstrap_conway_pparams current genesis.conway))
      else .panic hardforkPanicMsg
  | .conway _ => .panic hardforkPanicMsg

/-- Whether the declared transition table has a rule for
(era variant of `p`, `next_protocol`): mirrors the guards of the match arms
in `advance_hardfork`. -/
def hasHardforkRule (p : MultiEraProtocolParameters) (next_protocol : Nat) : Bool :=
  match p with
  | .byron _ => next_protocol == 1 || next_protocol == 2
  | .shelley _ => next_protocol ≤ 5
  | .alonzo _ => next_protocol == 6 || next_protocol == 7
  | .babbage _ => next_protocol == 8 || next_protocol == 9
  | .conway _ => false

/-! ### The fold (`fold_pparams`, lines 470-520)

The embedding is instrumented with an event trace mirroring the `debug!`
log statements of the source: one `hf` event per hard-fork step taken and
one `upd` event per update proposal applied.  `fold_pparams` itself is the
trace-erased projection. -/

/-- Trace event of the fold: a hard-fork step to protocol version `next`
taken while processing `epoch`, or an update application in `epoch`. -/
inductive FoldEvent where
  | hf (epoch : Nat) (next : Nat)
  | upd (epoch : Nat)
deriving Repr, DecidableEq

/-- The inclusive Rust range `lo..=hi` as a list (empty when `hi < lo`). -/
def rangeIncl (lo hi : Nat) : List Nat := List.range' lo (hi + 1 - lo)

/-- The hard-fork phase of one epoch: run `advance_hardfork` for each
version in the given range, threading the parameters and recording the
version last advanced to (`last_protocol`). -/
def run_hardforks (genesis : Genesis) (epoch : Nat) :
    List Nat → MultiEraProtocolParameters → Nat →
    PanicOr ((MultiEraProtocolParameters × Nat) × List FoldEvent)
  | [], p, last => .ok ((p, last), [])
  | next :: rest, p, _last =>
      match advance_hardfork p genesis next with
      | .panic m => .panic m
      | .ok p2 =>
          match run_hardforks genesis epoch rest p2 next with
          | .panic m => .panic m
          | .ok (st, tr) => .ok (st, .hf epoch next :: tr)

/-- The body of one iteration of the epoch loop: hard-fork catch-up from
`last_protocol + 1` up to the protocol version recorded at epoch entry,
then application, in arrival order, of every update recorded for this
epoch. -/
def run_epoch (genesis : Genesis) (updates : List MultiEraUpdate) (epoch : Nat)
    (p : MultiEraProtocolParameters) (last : Nat) :
    PanicOr ((MultiEraProtocolParameters × Nat) × List FoldEvent) :=
  match run_hardforks genesis epoch (rangeIncl (last + 1) p.protocol_version) p last with
  | .panic m => .panic m
  | .ok ((p2, last2), tr) =>
      let epoch_updates := updates.filter (fun u => u.epoch == epoch)
      .ok ((epoch_updates.foldl apply_param_update p2, last2),
        tr ++ epoch_updates.map (fun _ => .upd epoch))

/-- The epoch loop `for epoch in 0..for_epoch`, starting at `epoch` with
`remaining` iterations left. -/
def run_epochs (genesis : Genesis) (updates : List MultiEraUpdate) :
    Nat → Nat → MultiEraProtocolParameters → Nat →
    PanicOr ((MultiEraProtocolParameters × Nat) × List FoldEvent)
  | _, 0, p, last => .ok ((p, last), [])
  | epoch, remaining + 1, p, last =>
      match run_epoch genesis updates epoch p last with
      | .panic m => .panic m
      | .ok ((p2, last2), tr) =>
          match run_epochs genesis updates (epoch + 1) remaining p2 last2 with
          | .panic m => .panic m
          | .ok (st, tr2) => .ok (st, tr ++ tr2)

/-- The initialization of the fold (`&updates[0]` dispatch): Byron-tagged
first update bootstraps Byron from the Byron genesis, anything else
bootstraps Shelley from the Shelley genesis. -/
def initial_pparams (genesis : Genesis) (first : MultiEraUpdate) :
    MultiEraProtocolParameters :=
  match first.era with
  | .byron => .byron (bootstrap_byron_pparams genesis.byron)
  | _ => .shelley (bootstrap_shelley_pparams genesis.shelley)

/-- `fold_pparams` with its event trace.  An empty `updates` slice hits the
out-of-bounds panic of `&updates[0]`. -/
def fold_pparams_t (genesis : Genesis) (updates : List MultiEraUpdate)
    (for_epoch : Nat) : PanicOr (MultiEraProtocolParameters × List FoldEvent) :=
  match updates with
  | [] => .panic indexPanicMsg
  | first :: _ =>
      match run_epochs genesis updates 0 for_epoch (initial_pparams genesis first) 0 with
      | .panic m => .panic m
      | .ok ((p, _), tr) => .ok (p, tr)

/-- `fold_pparams` (lines 470-520): trace-erased fold. -/
def fold_pparams (genesis : Genesis) (updates : List MultiEraUpdate)
    (for_epoch : Nat) : PanicOr MultiEraProtocolParameters :=
  match fold_pparams_t genesis updates for_epoch with
  | .panic m => .panic m
  | .ok (p, _) => .ok p

/-! ### Ledger store (`src/state/redb/v2.rs`)

`LedgerStore::apply` opens one write transaction, applies every delta to all
four tables inside it, and commits once; `get_utxos` returns early on an
empty input before opening a read transaction.  The bodies of the
`tables::*` functions are not part of the provided sources, so they are
modelled from the spec (sections 3, 4.2, 4.3, 6); the transaction discipline
(writes go to a pending snapshot, a single commit publishes it) models the
embedded database's single-writer transactional contract from section 5. -/

abbrev BlockSlot := Nat

/-- 32-byte block hash, opaque. -/
abbrev BlockHash := Nat

/-- Chain position: slot plus block hash. -/
structure ChainPoint where
  slot : BlockSlot
  hash : BlockHash
deriving Repr, DecidableEq

/-- Transaction output reference: (transaction hash, output index). -/
abbrev TxoRef := Nat × Nat

/-- Era-tagged serialized output body; opaque to the store. -/
abbrev UtxoBody := Nat

/-- Parameter snapshot entry: effective slot plus opaque parameter body. -/
structure PParamsBody where
  effective_slot : BlockSlot
  body : Nat
deriving Repr, DecidableEq

/-- The unit of mutation handed to `LedgerStore::apply` (spec section 3). -/
structure LedgerDelta where
  new_position : Option ChainPoint := none
  undone_position : Option ChainPoint := none
  produced_utxo : List (TxoRef × UtxoBody) := []
  consumed_utxo : List TxoRef := []
  recovered_stxi : List (TxoRef × UtxoBody) := []
  undone_utxo : List TxoRef := []
  new_pparams : Option PParamsBody := none
deriving Repr, DecidableEq

/-- Cursor-table value: block hash plus the tombstone set recorded at that
slot (spec section 6 table layout). -/
structure CursorValue where
  hash : BlockHash
  tombstones : List TxoRef
deriving Repr, DecidableEq

/-- The four logical tables of the store.  The UTXO table carries a spent
marker per entry (tombstone, erased only at compaction); the filter-index
table maps (index kind, key bytes) entries to `TxoRef`s. -/
structure StoreState where
  cursor : List (BlockSlot × CursorValue) := []
  utxos : List (TxoRef × (UtxoBody × Bool)) := []
  pparams_log : List (BlockSlot × PParamsBody) := []
  indexes : List ((Nat × Nat) × TxoRef) := []
deriving Repr, DecidableEq

/-- Modelled from the spec: `tables::CursorTable::apply` — record the new
position (with the delta's tombstone set) and drop an undone position. -/
def cursor_apply (d : LedgerDelta) (st : StoreState) : StoreState :=
  let st :=
    match d.new_position with
    | some pt => { st with cursor := st.cursor ++ [(pt.slot, ⟨pt.hash, d.consumed_utxo⟩)] }
    | none => st
  match d.undone_position with
  | some pt => { st with cursor := st.cursor.filter (fun kv => kv.1 != pt.slot) }
  | none => st

/-- Mark one UTXO entry as spent (tombstoned, not deleted). -/
def setSpent (utxos : List (TxoRef × (UtxoBody × Bool))) (r : TxoRef) :
    List (TxoRef × (UtxoBody × Bool)) :=
  utxos.map (fun kv => if kv.1 = r then (kv.1, (kv.2.1, true)) else kv)

/-- Modelled from the spec: `tables::UtxosTable::apply` — insert produced
outputs, tombstone consumed ones, resurrect recovered ones, remove outputs
undone by a rollback. -/
def utxos_apply (d : LedgerDelta) (st : StoreState) : StoreState :=
  let m := st.utxos ++ d.produced_utxo.map (fun rb => (rb.1, (rb.2, false)))
  let m := d.consumed_utxo.foldl setSpent m
  let m := m ++ d.recovered_stxi.map (fun rb => (rb.1, (rb.2, false)))
  let m := m.filter (fun kv => !(d.undone_utxo.contains kv.1))
  { st with utxos := m }

/-- Modelled from the spec: `tables::PParamsTable::apply` — append the new
parameter snapshot, if any, keyed by its effective slot. -/
def pparams_apply (d : LedgerDelta) (st : StoreState) : StoreState :=
  match d.new_pparams with
  | some b => { st with pparams_log := st.pparams_log ++ [(b.effective_slot, b)] }
  | none => st

/-- Modelled from the spec: `tables::FilterIndexes::apply` — insert index
entries derived from each produced body by the external decoding
collaborator `ext` (index kind, key bytes), and remove entries of consumed
outputs. -/
def indexes_apply (ext : UtxoBody → List (Nat × Nat)) (d : LedgerDelta)
    (st : StoreState) : StoreState :=
  let added := d.produced_utxo.foldl
    (fun acc rb => acc ++ (ext rb.2).map (fun k => (k, rb.1))) []
  let ix := (st.indexes ++ added).filter (fun e => !(d.consumed_utxo.contains e.2))
  { st with indexes := ix }

/-- The combined effect of one delta on all four tables. -/
def delta_apply (ext : UtxoBody → List (Nat × Nat)) (st : StoreState)
    (d : LedgerDelta) : StoreState :=
  indexes_apply ext d (pparams_apply d (utxos_apply d (cursor_apply d st)))

/-- One primitive operation of the `apply` code path: open the write
transaction, write to a table inside it, or commit it. -/
inductive StoreOp where
  | beginWrite
  | tableWrite (f : StoreState → StoreState)
  | commit

/-- Whether an operation is the commit. -/
def StoreOp.isCommit : StoreOp → Bool
  | .commit => true
  | _ => false

/-- Transaction machine state: the durably committed store plus the pending
write-transaction snapshot, if one is open.  Readers observe `committed`
only (spec section 5: a consistent snapshot unaffected by in-flight
writes). -/
structure TxnState where
  committed : StoreState
  pending : Option StoreState

/-- Small-step semantics of the transaction machine. -/
def stepOp (s : TxnState) : StoreOp → TxnState
  | .beginWrite => { s with pending := some s.committed }
  | .tableWrite f => { s with pending := s.pending.map f }
  | .commit =>
      match s.pending with
      | some st => { committed := st, pending := none }
      | none => s

/-- Run a sequence of operations. -/
def runOps (s : TxnState) (ops : List StoreOp) : TxnState := ops.foldl stepOp s

/-- The four table writes of one delta, in the order of the source loop. -/
def delta_ops (ext : UtxoBody → List (Nat × Nat)) (d : LedgerDelta) : List StoreOp :=
  [.tableWrite (cursor_apply d), .tableWrite (utxos_apply d),
   .tableWrite (pparams_apply d), .tableWrite (indexes_apply ext d)]

/-- The operation sequence executed by `LedgerStore::apply` (v2.rs lines
38-52): one `begin_write`, all four table applies for every delta of the
batch, then one `commit`. -/
def apply_program (ext : UtxoBody → List (Nat × Nat)) (deltas : List LedgerDelta) :
    List StoreOp :=
  .beginWrite :: ((deltas.map (delta_ops ext)).flatten ++ [.commit])

/-- `LedgerStore::apply`: the committed state after running the whole
program. -/
def LedgerStore.apply (ext : UtxoBody → List (Nat × Nat)) (st : StoreState)
    (deltas : List LedgerDelta) : StoreState :=
  (runOps ⟨st, none⟩ (apply_program ext deltas)).committed

/-- Modelled from the spec: `tables::CursorTable::last`, hence
`LedgerStore::cursor` — the entry with the greatest slot, if any. -/
def store_cursor (st : StoreState) : Option ChainPoint :=
  st.cursor.foldl
    (fun acc kv =>
      match acc with
      | none => some ⟨kv.1, kv.2.hash⟩
      | some c => if c.slot ≤ kv.1 then some ⟨kv.1, kv.2.hash⟩ else some c)
    none

/-- Modelled from the spec: `tables::UtxosTable::get_sparse` — the subset of
the requested keys present (and not tombstoned) in the UTXO table, with
their bodies; missing keys are simply absent from the result. -/
def get_sparse (st : StoreState) (refs : List TxoRef) : List (TxoRef × UtxoBody) :=
  refs.filterMap (fun r =>
    match st.utxos.lookup r with
    | some (b, false) => some (r, b)
    | _ => none)

/-- `LedgerStore::get_utxos` (v2.rs lines 71-79): exit early, before opening
a read transaction, when there is nothing to fetch.  The second component
counts the read transactions opened by the call. -/
def LedgerStore.get_utxos (st : StoreState) (refs : List TxoRef) :
    List (TxoRef × UtxoBody) × Nat :=
  if refs.isEmpty then ([], 0) else (get_sparse st refs, 1)

/-! ### Spec-side definitions

These definitions follow the spec's words (not the source) and are compared
against the source-derived definitions in the refinement theorems below. -/

/-- Spec side, section 4.1 step 1: "the earliest era indicated by the first
update's era tag".  A Byron-encoded update indicates Byron; the
AlonzoCompatible encoding is shared by Shelley through Alonzo blocks
(section 3), so its earliest indicated era is Shelley; the Babbage and
Conway encodings each indicate exactly their own era. -/
def spec_era_indicated : UpdateEra → EraTag
  | .byron => .byron
  | .alonzoCompatible => .shelley
  | .babbage => .babbage
  | .conway => .conway

/-- The value of the last update in `us` (arrival order) that proposes a
value through `acc`, or the fallback `v` when none proposes one. -/
def lastProposedD (acc : MultiEraUpdate → Option α) (us : List MultiEraUpdate)
    (v : α) : α :=
  ((us.filterMap acc).getLast?).getD v

/-- The (summand, multiplier) pair proposed by a Byron fee-policy update of
the `Variant0` shape, if any. -/
def byron_fee_pol_v0 (u : MultiEraUpdate) : Option (Nat × Nat) :=
  match u.byron_proposed_fee_policy with
  | some (.variant0 s m) => some (s, m)
  | _ => none

open MultiEraUpdate in
/-- Spec side: last-write-wins outcome for a Byron parameter record —
each proposed field equals the value of the last proposing update in
arrival order, all other fields keep their prior value. -/
def spec_byron_lww (us : List MultiEraUpdate) (p : ByronProtParams) :
    ByronProtParams :=
  { p with
    block_version := lastProposedD (fun u => u.byron_proposed_block_version) us p.block_version
    summand := (lastProposedD byron_fee_pol_v0 us (p.summand, p.multiplier)).1
    multiplier := (lastProposedD byron_fee_pol_v0 us (p.summand, p.multiplier)).2
    max_tx_size := lastProposedD (fun u => u.byron_proposed_max_tx_size) us p.max_tx_size }

open MultiEraUpdate in
/-- Spec side: last-write-wins outcome for a Shelley parameter record. -/
def spec_shelley_lww (us : List MultiEraUpdate) (p : ShelleyProtParams) :
    ShelleyProtParams :=
  { p with
    minfee_a := lastProposedD first_proposed_minfee_a_ab us p.minfee_a
    minfee_b := lastProposedD first_proposed_minfee_b_ab us p.minfee_b
    max_block_body_size := lastProposedD first_proposed_max_block_body_size_ab us p.max_block_body_size
    max_transaction_size := lastProposedD first_proposed_max_transaction_size_ab us p.max_transaction_size
    max_block_header_size := lastProposedD first_proposed_max_block_header_size_ab us p.max_block_header_size
    key_deposit := lastProposedD first_proposed_key_deposit_ab us p.key_deposit
    pool_deposit := lastProposedD first_proposed_pool_deposit_ab us p.pool_deposit
    desired_number_of_stake_pools :=
      lastProposedD first_proposed_desired_number_of_stake_pools_ab us p.desired_number_of_stake_pools
    protocol_version := lastProposedD first_proposed_protocol_version_ab us p.protocol_version
    min_pool_cost := lastProposedD first_proposed_min_pool_cost_ab us p.min_pool_cost
    expansion_rate := lastProposedD first_proposed_expansion_rate_ab us p.expansion_rate
    treasury_growth_rate := lastProposedD first_proposed_treasury_growth_rate_ab us p.treasury_growth_rate
    pool_pledge_influence := lastProposedD first_proposed_pool_pledge_influence_ab us p.pool_pledge_influence
    decentralization_constant :=
      lastProposedD first_proposed_decentralization_constant_ac us p.decentralization_constant
    extra_entropy := lastProposedD first_proposed_extra_entropy_ac us p.extra_entropy }

open MultiEraUpdate in
/-- Spec side: last-write-wins outcome for an Alonzo parameter record. -/
def spec_alonzo_lww (us : List MultiEraUpdate) (p : AlonzoProtParams) :
    AlonzoProtParams :=
  { p with
    minfee_a := lastProposedD first_proposed_minfee_a_ab us p.minfee_a
    minfee_b := lastProposedD first_proposed_minfee_b_ab us p.minfee_b
    max_block_body_size := lastProposedD first_proposed_max_block_body_size_ab us p.max_block_body_size
    max_transaction_size := lastProposedD first_proposed_max_transaction_size_ab us p.max_transaction_size
    max_block_header_size := lastProposedD first_proposed_max_block_header_size_ab us p.max_block_header_size
    key_deposit := lastProposedD first_proposed_key_deposit_ab us p.key_deposit
    pool_deposit := lastProposedD first_proposed_pool_deposit_ab us p.pool_deposit
    desired_number_of_stake_pools :=
      lastProposedD first_proposed_desired_number_of_stake_pools_ab us p.desired_number_of_stake_pools
    protocol_version := lastProposedD first_proposed_protocol_version_ab us p.protocol_version
    min_pool_cost := lastProposedD first_proposed_min_pool_cost_ab us p.min_pool_cost
    ada_per_utxo_byte := lastProposedD first_proposed_ada_per_utxo_byte_ab us p.ada_per_utxo_byte
    cost_models_for_script_languages :=
      lastProposedD first_proposed_cost_models_ac us p.cost_models_for_script_languages
    execution_costs := lastProposedD first_proposed_execution_costs_ab us p.execution_costs
    max_tx_ex_units := lastProposedD first_proposed_max_tx_ex_units_ab us p.max_tx_ex_units
    max_block_ex_units := lastProposedD first_proposed_max_block_ex_units_ab us p.max_block_ex_units
    max_value_size := lastProposedD first_proposed_max_value_size_ab us p.max_value_size
    collateral_percentage := lastProposedD first_proposed_collateral_percentage_ab us p.collateral_percentage
    max_collateral_inputs := lastProposedD first_proposed_max_collateral_inputs_ab us p.max_collateral_inputs
    expansion_rate := lastProposedD first_proposed_expansion_rate_ab us p.expansion_rate
    treasury_growth_rate := lastProposedD first_proposed_treasury_growth_rate_ab us p.treasury_growth_rate
    pool_pledge_influence := lastProposedD first_proposed_pool_pledge_influence_ab us p.pool_pledge_influence
    decentralization_constant :=
      lastProposedD first_proposed_decentralization_constant_ac us p.decentralization_constant
    extra_entropy := lastProposedD first_proposed_extra_entropy_ac us p.extra_entropy }

open MultiEraUpdate in
/-- Spec side: last-write-wins outcome for a Babbage parameter record. -/
def spec_babbage_lww (us : List MultiEraUpdate) (p : BabbageProtParams) :
    BabbageProtParams :=
  { p with
    minfee_a := lastProposedD first_proposed_minfee_a_ab us p.minfee_a
    minfee_b := lastProposedD first_proposed_minfee_b_ab us p.minfee_b
    max_block_body_size := lastProposedD first_proposed_max_block_body_size_ab us p.max_block_body_size
    max_transaction_size := lastProposedD first_proposed_max_transaction_size_ab us p.max_transaction_size
    max_block_header_size := lastProposedD first_proposed_max_block_header_size_ab us p.max_block_header_size
    key_deposit := lastProposedD first_proposed_key_deposit_ab us p.key_deposit
    pool_deposit := lastProposedD first_proposed_pool_deposit_ab us p.pool_deposit
    desired_number_of_stake_pools :=
      lastProposedD first_proposed_desired_number_of_stake_pools_ab us p.desired_number_of_stake_pools
    protocol_version := lastProposedD first_proposed_protocol_version_ab us p.protocol_version
    min_pool_cost := lastProposedD first_proposed_min_pool_cost_ab us p.min_pool_cost
    ada_per_utxo_byte := lastProposedD first_proposed_ada_per_utxo_byte_ab us p.ada_per_utxo_byte
    cost_models_for_script_languages :=
      lastProposedD first_proposed_cost_models_bab us p.cost_models_for_script_languages
    execution_costs := lastProposedD first_proposed_execution_costs_ab us p.execution_costs
    max_tx_ex_units := lastProposedD first_proposed_max_tx_ex_units_ab us p.max_tx_ex_units
    max_block_ex_units := lastProposedD first_proposed_max_block_ex_units_ab us p.max_block_ex_units
    max_value_size := lastProposedD first_proposed_max_value_size_ab us p.max_value_size
    collateral_percentage := lastProposedD first_proposed_collateral_percentage_ab us p.collateral_percentage
    max_collateral_inputs := lastProposedD first_proposed_max_collateral_inputs_ab us p.max_collateral_inputs
    expansion_rate := lastProposedD first_proposed_expansion_rate_ab us p.expansion_rate
    treasury_growth_rate := lastProposedD first_proposed_treasury_growth_rate_ab us p.treasury_growth_rate
    pool_pledge_influence := lastProposedD first_proposed_pool_pledge_influence_ab us p.pool_pledge_influence
    decentralization_constant :=
      lastProposedD first_proposed_decentralization_constant_ac us p.decentralization_constant
    extra_entropy := lastProposedD first_proposed_extra_entropy_ac us p.extra_entropy }

open MultiEraUpdate in
/-- Spec side: last-write-wins outcome for a Conway parameter record (the
governance fields have no accessor and keep their prior value). -/
def spec_conway_lww (us : List MultiEraUpdate) (p : ConwayProtParams) :
    ConwayProtParams :=
  { p with
    minfee_a := lastProposedD first_proposed_minfee_a_ab us p.minfee_a
    minfee_b := lastProposedD first_proposed_minfee_b_ab us p.minfee_b
    max_block_body_size := lastProposedD first_proposed_max_block_body_size_ab us p.max_block_body_size
    max_transaction_size := lastProposedD first_proposed_max_transaction_size_ab us p.max_transaction_size
    max_block_header_size := lastProposedD first_proposed_max_block_header_size_ab us p.max_block_header_size
    key_deposit := lastProposedD first_proposed_key_deposit_ab us p.key_deposit
    pool_deposit := lastProposedD first_proposed_pool_deposit_ab us p.pool_deposit
    desired_number_of_stake_pools :=
      lastProposedD first_proposed_desired_number_of_stake_pools_ab us p.desired_number_of_stake_pools
    protocol_version := lastProposedD first_proposed_protocol_version_ab us p.protocol_version
    min_pool_cost := lastProposedD first_proposed_min_pool_cost_ab us p.min_pool_cost
    ada_per_utxo_byte := lastProposedD first_proposed_ada_per_utxo_byte_ab us p.ada_per_utxo_byte
    cost_models_for_script_languages :=
      lastProposedD first_proposed_cost_models_con us p.cost_models_for_script_languages
    execution_costs := lastProposedD first_proposed_execution_costs_ab us p.execution_costs
    max_tx_ex_units := lastProposedD first_proposed_max_tx_ex_units_ab us p.max_tx_ex_units
    max_block_ex_units := lastProposedD first_proposed_max_block_ex_units_ab us p.max_block_ex_units
    max_value_size := lastProposedD first_proposed_max_value_size_ab us p.max_value_size
    collateral_percentage := lastProposedD first_proposed_collateral_percentage_ab us p.collateral_percentage
    max_collateral_inputs := lastProposedD first_proposed_max_collateral_inputs_ab us p.max_collateral_inputs
    expansion_rate := lastProposedD first_proposed_expansion_rate_ab us p.expansion_rate
    treasury_growth_rate := lastProposedD first_proposed_treasury_growth_rate_ab us p.treasury_growth_rate
    pool_pledge_influence := lastProposedD first_proposed_pool_pledge_influence_ab us p.pool_pledge_influence }

/-! ### Trace observations -/

/-- The protocol versions of the hard-fork steps of a trace, in order. -/
def hfVersions (tr : List FoldEvent) : List Nat :=
  tr.filterMap (fun ev =>
    match ev with
    | .hf _ n => some n
    | .upd _ => none)

/-- The epoch an event belongs to. -/
def eventEpoch : FoldEvent → Nat
  | .hf e _ => e
  | .upd e => e

/-- Whether an event is a hard-fork step. -/
def FoldEvent.isHf : FoldEvent → Bool
  | .hf _ _ => true
  | .upd _ => false

/-- Phase ordering of a fold trace: every update application strictly
precedes any hard-fork step of a *later* epoch only — equivalently, no
hard-fork step of some epoch happens after an update application of the
same (or a later) epoch, so each epoch's hard-fork catch-up completes
before that epoch's updates are applied. -/
def phaseOrdered (tr : List FoldEvent) : Prop :=
  ∀ (i j a b v : Nat), i < j → tr[i]? = some (FoldEvent.upd a) →
    tr[j]? = some (FoldEvent.hf b v) → a < b

/-! ### Concrete example values (used by witnesses and counterexamples) -/

/-- A concrete Byron genesis file. -/
def exByronGenesis : ByronGenesisFile :=
  { block_version_data :=
    { tx_fee_policy := { summand := 155381, multiplier := 44 }
      max_tx_size := 4096
      script_version := 0
      slot_duration := 20000
      max_block_size := 2000000
      max_header_size := 700000
      max_proposal_size := 700
      mpc_thd := 20
      heavy_del_thd := 3
      update_vote_thd := 1
      update_proposal_thd := 10
      update_implicit := 10000
      softfork_rule := { init_thd := 900, min_thd := 600, thd_decrement := 5 }
      unlock_stake_epoch := 18446744073709551615 } }

/-- A concrete Shelley genesis file. -/
def exShelleyGenesis : ShelleyGenesisFile :=
  { protocol_params :=
    { protocol_version := (2, 0)
      max_block_body_size := 65536
      max_tx_size := 16384
      max_block_header_size := 1100
      key_deposit := 2000000
      min_utxo_value := 1000000
      min_fee_a := 44
      min_fee_b := 155381
      pool_deposit := 500000000
      n_opt := 150
      min_pool_cost := 340000000
      rho := ⟨3, 1000⟩
      tau := ⟨2, 10⟩
      e_max := 18
      a0 := ⟨3, 10⟩
      decentralisation_param := ⟨1, 1⟩
      extra_entropy := 0 } }

/-- A concrete Alonzo genesis file. -/
def exAlonzoGenesis : AlonzoGenesisFile :=
  { lovelace_per_utxo_word := 34482
    cost_models := [(.plutusV1, [197209, 0, 1])]
    execution_prices := { mem_price := ⟨577, 10000⟩, step_price := ⟨721, 10000000⟩ }
    max_tx_ex_units := { mem := 10000000, steps := 10000000000 }
    max_block_ex_units := { mem := 50000000, steps := 40000000000 }
    max_value_size := 5000
    collateral_percentage := 150
    max_collateral_inputs := 3 }

/-- A concrete Conway genesis file. -/
def exConwayGenesis : ConwayGenesisFile :=
  { plutus_v3_cost_model := [100788, 420, 1] }

/-- A concrete genesis bundle. -/
def exGenesis : Genesis :=
  { byron := exByronGenesis
    shelley := exShelleyGenesis
    alonzo := exAlonzoGenesis
    conway := exConwayGenesis }

/-- A concrete Conway parameter record, for exercising the unhandled
hard-fork transition. -/
def exConwayParams : ConwayProtParams :=
  bootstrap_conway_pparams
    (bootstrap_babbage_pparams
      (bootstrap_alonzo_pparams (bootstrap_shelley_pparams exShelleyGenesis) exAlonzoGenesis))
    exConwayGenesis

/-- A concrete Byron-encoded update at epoch 0. -/
def exByronUpdate : MultiEraUpdate :=
  { era := .byron, epoch := 0, byron_proposed_max_tx_size := some 8192 }

/-- A concrete Conway-encoded update at epoch 0. -/
def exConwayUpdate : MultiEraUpdate :=
  { era := .conway, epoch := 0, bab_minfee_a := some 50 }

/-- A concrete Byron update proposing block version (1,0,0) at epoch 0,
which triggers one intra-era hard-fork step in the following epoch. -/
def exByronVersionUpdate : MultiEraUpdate :=
  { era := .byron, epoch := 0, byron_proposed_block_version := some (1, 0, 0) }

/-- A concrete update exposing `minfee_a` through both encoding variants. -/
def exBothVariantsUpdate : MultiEraUpdate :=
  { era := .babbage, epoch := 0, ac_minfee_a := some 7, bab_minfee_a := some 9 }

/-- A concrete update exposing `minfee_a` only through the second
(Babbage) encoding variant. -/
def exSecondVariantUpdate : MultiEraUpdate :=
  { era := .babbage, epoch := 0, bab_minfee_a := some 9 }

/-- A concrete store with one live and one tombstoned UTXO. -/
def exStore : StoreState :=
  { cursor := [(5, ⟨77, []⟩)]
    utxos := [((1, 0), (10, false)), ((2, 0), (20, true))]
    pparams_log := []
    indexes := [((0, 9), (1, 0))] }

/-- A concrete delta moving the chain to slot 6. -/
def exDelta : LedgerDelta :=
  { new_position := some ⟨6, 88⟩
    produced_utxo := [((3, 0), 30)]
    consumed_utxo := [(1, 0)] }

/-- A concrete index-extraction function for the store examples. -/
def exExt : UtxoBody → List (Nat × Nat) := fun b => [(0, b)]

/-! ## Helper lemmas -/

/-- The Babbage bootstrap's PlutusV1 selection equals an association-list
lookup: the Alonzo `Language` type has only `plutusV1`, so the first
matching entry is the first entry. -/
theorem filter_plutusV1_head_eq_lookup (l : AlonzoCostMdls) :
    ((l.filter (fun kv => kv.1 == Language.plutusV1)).map (fun kv => kv.2)).head? =
      l.lookup Language.plutusV1 := by
  cases l with
  | nil => rfl
  | cons kv rest =>
      rcases kv with ⟨L, m⟩
      cases L
      rfl

/-- `advance_hardfork` either aborts with the hard-fork panic message or
returns a value: no other panic message can arise from it. -/
theorem advance_hardfork_panic_or_ok (p : MultiEraProtocolParameters)
    (g : Genesis) (n : Nat) :
    advance_hardfork p g n = .panic hardforkPanicMsg ∨
      ∃ q, advance_hardfork p g n = .ok q := by
  cases p <;> unfold advance_hardfork <;> (repeat' split) <;> simp

/-- `run_hardforks` either aborts with the hard-fork panic message or
returns a value. -/
theorem run_hardforks_panic_or_ok (g : Genesis) (ep : Nat) :
    ∀ (vs : List Nat) (p : MultiEraProtocolParameters) (last : Nat),
      run_hardforks g ep vs p last = .panic hardforkPanicMsg ∨
        ∃ r, run_hardforks g ep vs p last = .ok r := by
  intro vs
  induction vs with
  | nil => exact fun p last => .inr ⟨_, rfl⟩
  | cons v rest ih =>
      intro p last
      rcases advance_hardfork_panic_or_ok p g v with h | ⟨q, h⟩
      · left
        simp only [run_hardforks, h]
      · rcases ih q v with h2 | ⟨⟨st, tr⟩, h2⟩
        · left
          simp only [run_hardforks, h, h2]
        · right
          exact ⟨_, by simp only [run_hardforks, h, h2]; rfl⟩

/-- `run_epoch` either aborts with the hard-fork panic message or returns a
value. -/
theorem run_epoch_panic_or_ok (g : Genesis) (us : List MultiEraUpdate)
    (ep : Nat) (p : MultiEraProtocolParameters) (last : Nat) :
    run_epoch g us ep p last = .panic hardforkPanicMsg ∨
      ∃ r, run_epoch g us ep p last = .ok r := by
  rcases run_hardforks_panic_or_ok g ep (rangeIncl (last + 1) p.protocol_version) p last
    with h | ⟨⟨⟨p2, l2⟩, tr⟩, h⟩
  · left
    simp only [run_epoch, h]
  · right
    exact ⟨_, by simp only [run_epoch, h]; rfl⟩

/-- `run_epochs` either aborts with the hard-fork panic message or returns
a value. -/
theorem run_epochs_panic_or_ok (g : Genesis) (us : List MultiEraUpdate) :
    ∀ (r ep : Nat) (p : MultiEraProtocolParameters) (last : Nat),
      run_epochs g us ep r p last = .panic hardforkPanicMsg ∨
        ∃ res, run_epochs g us ep r p last = .ok res := by
  intro r
  induction r with
  | zero => exact fun ep p last => .inr ⟨_, rfl⟩
  | succ r ih =>
      intro ep p last
      rcases run_epoch_panic_or_ok g us ep p last with h | ⟨⟨⟨p2, l2⟩, tr⟩, h⟩
      · left
        simp only [run_epochs, h]
      · rcases ih (ep + 1) p2 l2 with h2 | ⟨⟨st, tr2⟩, h2⟩
        · left
          simp only [run_epochs, h, h2]
        · right
          exact ⟨_, by simp only [run_epochs, h, h2]; rfl⟩

/-! ## Claim theorems -/

/-- C10: applying an update proposal preserves the era variant — every arm
of `apply_param_update` rebuilds the same constructor it matched, so only
hard-fork transitions change the active era. -/
theorem apply_param_update_preserves_era (p : MultiEraProtocolParameters)
    (u : MultiEraUpdate) : eraOf (apply_param_update p u) = eraOf p := by
  cases p <;> rfl

/-- C2: hard-fork field inheritance — at each era-boundary transition
(Shelley to Alonzo, Alonzo to Babbage, Babbage to Conway), every field
present in both the previous and the next variant and not newly
bootstrapped from the next era's genesis keeps the exact value it had
before the transition; for the restructured cost-model field, the per-
language models present before the transition are the ones carried over. -/
theorem hardfork_field_inheritance (sp : ShelleyProtParams) (ag : AlonzoGenesisFile)
    (ap : AlonzoProtParams) (bp : BabbageProtParams) (cg : ConwayGenesisFile) :
    ((bootstrap_alonzo_pparams sp ag).minfee_a = sp.minfee_a ∧
     (bootstrap_alonzo_pparams sp ag).minfee_b = sp.minfee_b ∧
     (bootstrap_alonzo_pparams sp ag).max_block_body_size = sp.max_block_body_size ∧
     (bootstrap_alonzo_pparams sp ag).max_transaction_size = sp.max_transaction_size ∧
     (bootstrap_alonzo_pparams sp ag).max_block_header_size = sp.max_block_header_size ∧
     (bootstrap_alonzo_pparams sp ag).key_deposit = sp.key_deposit ∧
     (bootstrap_alonzo_pparams sp ag).pool_deposit = sp.pool_deposit ∧
     (bootstrap_alonzo_pparams sp ag).protocol_version = sp.protocol_version ∧
     (bootstrap_alonzo_pparams sp ag).min_pool_cost = sp.min_pool_cost ∧
     (bootstrap_alonzo_pparams sp ag).desired_number_of_stake_pools = sp.desired_number_of_stake_pools ∧
     (bootstrap_alonzo_pparams sp ag).expansion_rate = sp.expansion_rate ∧
     (bootstrap_alonzo_pparams sp ag).treasury_growth_rate = sp.treasury_growth_rate ∧
     (bootstrap_alonzo_pparams sp ag).maximum_epoch = sp.maximum_epoch ∧
     (bootstrap_alonzo_pparams sp ag).pool_pledge_influence = sp.pool_pledge_influence ∧
     (bootstrap_alonzo_pparams sp ag).decentralization_constant = sp.decentralization_constant ∧
     (bootstrap_alonzo_pparams sp ag).extra_entropy = sp.extra_entropy) ∧
    ((bootstrap_babbage_pparams ap).minfee_a = ap.minfee_a ∧
     (bootstrap_babbage_pparams ap).minfee_b = ap.minfee_b ∧
     (bootstrap_babbage_pparams ap).max_block_body_size = ap.max_block_body_size ∧
     (bootstrap_babbage_pparams ap).max_transaction_size = ap.max_transaction_size ∧
     (bootstrap_babbage_pparams ap).max_block_header_size = ap.max_block_header_size ∧
     (bootstrap_babbage_pparams ap).key_deposit = ap.key_deposit ∧
     (bootstrap_babbage_pparams ap).pool_deposit = ap.pool_deposit ∧
     (bootstrap_babbage_pparams ap).protocol_version = ap.protocol_version ∧
     (bootstrap_babbage_pparams ap).min_pool_cost = ap.min_pool_cost ∧
     (bootstrap_babbage_pparams ap).desired_number_of_stake_pools = ap.desired_number_of_stake_pools ∧
     (bootstrap_babbage_pparams ap).ada_per_utxo_byte = ap.ada_per_utxo_byte ∧
     (bootstrap_babbage_pparams ap).execution_costs = ap.execution_costs ∧
     (bootstrap_babbage_pparams ap).max_tx_ex_units = ap.max_tx_ex_units ∧
     (bootstrap_babbage_pparams ap).max_block_ex_units = ap.max_block_ex_units ∧
     (bootstrap_babbage_pparams ap).max_value_size = ap.max_value_size ∧
     (bootstrap_babbage_pparams ap).collateral_percentage = ap.collateral_percentage ∧
     (bootstrap_babbage_pparams ap).max_collateral_inputs = ap.max_collateral_inputs ∧
     (bootstrap_babbage_pparams ap).expansion_rate = ap.expansion_rate ∧
     (bootstrap_babbage_pparams ap).treasury_growth_rate = ap.treasury_growth_rate ∧
     (bootstrap_babbage_pparams ap).maximum_epoch = ap.maximum_epoch ∧
     (bootstrap_babbage_pparams ap).pool_pledge_influence = ap.pool_pledge_influence ∧
     (bootstrap_babbage_pparams ap).decentralization_constant = ap.decentralization_constant ∧
     (bootstrap_babbage_pparams ap).extra_entropy = ap.extra_entropy ∧
     (bootstrap_babbage_pparams ap).cost_models_for_script_languages.plutus_v1 =
       ap.cost_models_for_script_languages.lookup Language.plutusV1) ∧
    ((bootstrap_conway_pparams bp cg).minfee_a = bp.minfee_a ∧
     (bootstrap_conway_pparams bp cg).minfee_b = bp.minfee_b ∧
     (bootstrap_conway_pparams bp cg).max_block_body_size = bp.max_block_body_size ∧
     (bootstrap_conway_pparams bp cg).max_transaction_size = bp.max_transaction_size ∧
     (bootstrap_conway_pparams bp cg).max_block_header_size = bp.max_block_header_size ∧
     (bootstrap_conway_pparams bp cg).key_deposit = bp.key_deposit ∧
     (bootstrap_conway_pparams bp cg).pool_deposit = bp.pool_deposit ∧
     (bootstrap_conway_pparams bp cg).protocol_version = bp.protocol_version ∧
     (bootstrap_conway_pparams bp cg).min_pool_cost = bp.min_pool_cost ∧
     (bootstrap_conway_pparams bp cg).desired_number_of_stake_pools = bp.desired_number_of_stake_pools ∧
     (bootstrap_conway_pparams bp cg).ada_per_utxo_byte = bp.ada_per_utxo_byte ∧
     (bootstrap_conway_pparams bp cg).execution_costs = bp.execution_costs ∧
     (bootstrap_conway_pparams bp cg).max_tx_ex_units = bp.max_tx_ex_units ∧
     (bootstrap_conway_pparams bp cg).max_block_ex_units = bp.max_block_ex_units ∧
     (bootstrap_conway_pparams bp cg).max_value_size = bp.max_value_size ∧
     (bootstrap_conway_pparams bp cg).collateral_percentage = bp.collateral_percentage ∧
     (bootstrap_conway_pparams bp cg).max_collateral_inputs = bp.max_collateral_inputs ∧
     (bootstrap_conway_pparams bp cg).expansion_rate = bp.expansion_rate ∧
     (bootstrap_conway_pparams bp cg).treasury_growth_rate = bp.treasury_growth_rate ∧
     (bootstrap_conway_pparams bp cg).maximum_epoch = bp.maximum_epoch ∧
     (bootstrap_conway_pparams bp cg).pool_pledge_influence = bp.pool_pledge_influence ∧
     (bootstrap_conway_pparams bp cg).cost_models_for_script_languages.plutus_v1 =
       bp.cost_models_for_script_languages.plutus_v1 ∧
     (bootstrap_conway_pparams bp cg).cost_models_for_script_languages.plutus_v2 =
       bp.cost_models_for_script_languages.plutus_v2) := by
  refine ⟨⟨rfl, rfl, rfl, rfl, rfl, rfl, rfl, rfl, rfl, rfl, rfl, rfl, rfl, rfl, rfl, rfl⟩,
    ⟨rfl, rfl, rfl, rfl, rfl, rfl, rfl, rfl, rfl, rfl, rfl, rfl, rfl, rfl, rfl, rfl, rfl,
     rfl, rfl, rfl, rfl, rfl, rfl, filter_plutusV1_head_eq_lookup _⟩,
    ⟨rfl, rfl, rfl, rfl, rfl, rfl, rfl, rfl, rfl, rfl, rfl, rfl, rfl, rfl, rfl, rfl, rfl,
     rfl, rfl, rfl, rfl, rfl, rfl⟩⟩

/-- C1 counterexample: at the concrete unhandled pair (Conway era, next
protocol version 10) the transition step aborts with the Rust
`unimplemented!` panic — the fold crashes instead of returning a structured
error value to the caller (its return type has no error channel at all). -/
theorem advance_hardfork_unhandled_panics_cx :
    advance_hardfork (.conway exConwayParams) exGenesis 10 =
      .panic hardforkPanicMsg := rfl

/-- C1 amended: for every (era variant, next protocol version) pair with no
declared transition rule, `advance_hardfork` aborts the fold with the
`unimplemented!` panic (it neither continues with partial state nor returns
a structured error — the function has no error return channel). -/
theorem advance_hardfork_unhandled_is_panic (p : MultiEraProtocolParameters)
    (genesis : Genesis) (n : Nat) (h : hasHardforkRule p n = false) :
    advance_hardfork p genesis n = .panic hardforkPanicMsg := by
  cases p with
  | byron q =>
      simp only [hasHardforkRule, Bool.or_eq_false_iff, beq_eq_false_iff_ne, ne_eq] at h
      simp [advance_hardfork, h.1, h.2]
  | shelley q =>
      simp only [hasHardforkRule, decide_eq_false_iff_not, not_le] at h
      have h5 : ¬ n < 5 := by omega
      have h5' : n ≠ 5 := by omega
      simp [advance_hardfork, h5, h5']
  | alonzo q =>
      simp only [hasHardforkRule, Bool.or_eq_false_iff, beq_eq_false_iff_ne, ne_eq] at h
      simp [advance_hardfork, h.1, h.2]
  | babbage q =>
      simp only [hasHardforkRule, Bool.or_eq_false_iff, beq_eq_false_iff_ne, ne_eq] at h
      simp [advance_hardfork, h.1, h.2]
  | conway q => rfl

/-- C1 amended witness: the amended theorem applied at the concrete
(Conway, 10) input. -/
theorem advance_hardfork_unhandled_is_panic_witness :
    hasHardforkRule (.conway exConwayParams) 10 = false ∧
    advance_hardfork (.conway exConwayParams) exGenesis 10 = .panic hardforkPanicMsg :=
  ⟨rfl, advance_hardfork_unhandled_is_panic (.conway exConwayParams) exGenesis 10 rfl⟩

/-- C7 counterexample: for a fold whose first update is Conway-encoded, the
spec's "earliest era indicated by the era tag" is Conway, but the code
initializes the union as a Shelley variant bootstrapped from the Shelley
genesis (the dispatch only distinguishes Byron from everything else). -/
theorem fold_initial_era_cx :
    fold_pparams exGenesis [exConwayUpdate] 0 =
      .ok (.shelley (bootstrap_shelley_pparams exGenesis.shelley)) ∧
    spec_era_indicated UpdateEra.conway = EraTag.conway ∧
    eraOf (.shelley (bootstrap_shelley_pparams exGenesis.shelley)) ≠ EraTag.conway :=
  ⟨rfl, rfl, by decide⟩

/-- C7 amended: the fold initializes the union from the first update's era
tag with a two-way dispatch — Byron-tagged first update: Byron parameters
bootstrapped from the Byron genesis; any other tag: Shelley parameters
bootstrapped from the Shelley genesis — with no prior state. -/
theorem fold_initializes_byron_or_shelley (g : Genesis) (u : MultiEraUpdate)
    (rest : List MultiEraUpdate) :
    fold_pparams g (u :: rest) 0 = .ok (initial_pparams g u) ∧
    (u.era = .byron → initial_pparams g u = .byron (bootstrap_byron_pparams g.byron)) ∧
    (u.era ≠ .byron → initial_pparams g u = .shelley (bootstrap_shelley_pparams g.shelley)) := by
  refine ⟨rfl, fun h => by simp [initial_pparams, h], fun h => ?_⟩
  unfold initial_pparams
  cases he : u.era
  · exact absurd he h
  all_goals rfl

/-- C9: `fold_pparams` unconditionally indexes `updates[0]`, so the empty
update sequence reaches the out-of-bounds panic; with at least one update
supplied, that panic branch is unreachable (any remaining abort is the
distinct hard-fork panic). -/
theorem fold_requires_nonempty_updates :
    (∀ (g : Genesis) (e : Nat), fold_pparams g [] e = .panic indexPanicMsg) ∧
    (∀ (g : Genesis) (us : List MultiEraUpdate) (e : Nat), us ≠ [] →
      fold_pparams g us e ≠ .panic indexPanicMsg) := by
  constructor
  · intro g e
    rfl
  · intro g us e hne
    cases us with
    | nil => exact absurd rfl hne
    | cons u rest =>
        rcases run_epochs_panic_or_ok g (u :: rest) e 0 (initial_pparams g u) 0
          with h | ⟨⟨⟨p, l⟩, tr⟩, h⟩
        · unfold fold_pparams fold_pparams_t
          simp only [h]
          simp only [ne_eq, PanicOr.panic.injEq]
          decide
        · unfold fold_pparams fold_pparams_t
          simp only [h]
          simp

/-- C9 witness: the theorem applied at a concrete non-empty update list. -/
theorem fold_requires_nonempty_updates_witness :
    fold_pparams exGenesis [exByronUpdate] 3 ≠ .panic indexPanicMsg :=
  fold_requires_nonempty_updates.2 exGenesis [exByronUpdate] 3 (by simp)

/-- C7 amended witness: the amended theorem applied at a Byron-tagged and
(via the third conjunct) a Conway-tagged concrete update. -/
theorem fold_initializes_byron_or_shelley_witness :
    initial_pparams exGenesis exByronUpdate =
      .byron (bootstrap_byron_pparams exGenesis.byron) ∧
    initial_pparams exGenesis exConwayUpdate =
      .shelley (bootstrap_shelley_pparams exGenesis.shelley) :=
  ⟨(fold_initializes_byron_or_shelley exGenesis exByronUpdate []).2.1 rfl,
   (fold_initializes_byron_or_shelley exGenesis exConwayUpdate []).2.2 (by decide)⟩

open MultiEraUpdate in
/-- C5: first-match-wins resolution — for a field exposed through the
AlonzoCompatible-then-Babbage accessor order (shown on `minfee_a`, whose
combinator every two-variant field shares), a value present under the first
variant wins and the second variant is not consulted; the second variant is
used exactly when the first is absent; whatever the winning accessor yields
becomes the field's new value in every era that defines it; and a field
whose accessors all yield nothing — or that has no accessor at all, like
`maximum_epoch` — is left unchanged. -/
theorem first_match_wins_update_resolution :
    (∀ (u : MultiEraUpdate) (v : Nat), u.ac_minfee_a = some v →
      first_proposed_minfee_a_ab u = some v) ∧
    (∀ u : MultiEraUpdate, u.ac_minfee_a = none →
      first_proposed_minfee_a_ab u = u.bab_minfee_a) ∧
    (∀ (p : ShelleyProtParams) (u : MultiEraUpdate) (v : Nat),
      first_proposed_minfee_a_ab u = some v → (update_shelley_pparams p u).minfee_a = v) ∧
    (∀ (p : ShelleyProtParams) (u : MultiEraUpdate),
      first_proposed_minfee_a_ab u = none →
      (update_shelley_pparams p u).minfee_a = p.minfee_a) ∧
    (∀ (p : AlonzoProtParams) (u : MultiEraUpdate) (v : Nat),
      first_proposed_minfee_a_ab u = some v → (update_alonzo_pparams p u).minfee_a = v) ∧
    (∀ (p : AlonzoProtParams) (u : MultiEraUpdate),
      first_proposed_minfee_a_ab u = none →
      (update_alonzo_pparams p u).minfee_a = p.minfee_a) ∧
    (∀ (p : BabbageProtParams) (u : MultiEraUpdate) (v : Nat),
      first_proposed_minfee_a_ab u = some v → (update_babbage_pparams p u).minfee_a = v) ∧
    (∀ (p : BabbageProtParams) (u : MultiEraUpdate),
      first_proposed_minfee_a_ab u = none →
      (update_babbage_pparams p u).minfee_a = p.minfee_a) ∧
    (∀ (p : ConwayProtParams) (u : MultiEraUpdate) (v : Nat),
      first_proposed_minfee_a_ab u = some v → (update_conway_pparams p u).minfee_a = v) ∧
    (∀ (p : ConwayProtParams) (u : MultiEraUpdate),
      first_proposed_minfee_a_ab u = none →
      (update_conway_pparams p u).minfee_a = p.minfee_a) ∧
    (∀ (p : ShelleyProtParams) (u : MultiEraUpdate),
      (update_shelley_pparams p u).maximum_epoch = p.maximum_epoch) ∧
    (∀ (p : AlonzoProtParams) (u : MultiEraUpdate),
      (update_alonzo_pparams p u).maximum_epoch = p.maximum_epoch) ∧
    (∀ (p : BabbageProtParams) (u : MultiEraUpdate),
      (update_babbage_pparams p u).maximum_epoch = p.maximum_epoch) ∧
    (∀ (p : ConwayProtParams) (u : MultiEraUpdate),
      (update_conway_pparams p u).maximum_epoch = p.maximum_epoch) := by
  refine ⟨fun u v h => ?_, fun u h => ?_,
    fun p u v h => ?_, fun p u h => ?_, fun p u v h => ?_, fun p u h => ?_,
    fun p u v h => ?_, fun p u h => ?_, fun p u v h => ?_, fun p u h => ?_,
    fun p u => rfl, fun p u => rfl, fun p u => rfl, fun p u => rfl⟩
  · simp [first_proposed_minfee_a_ab, firstAB, h]
  · simp [first_proposed_minfee_a_ab, firstAB, h]
  · simp [update_shelley_pparams, h]
  · simp [update_shelley_pparams, h]
  · simp [update_alonzo_pparams, h]
  · simp [update_alonzo_pparams, h]
  · simp [update_babbage_pparams, h]
  · simp [update_babbage_pparams, h]
  · simp [update_conway_pparams, h]
  · simp [update_conway_pparams, h]

/-- C5 witness: an update exposing both variants takes the first variant's
value; one exposing only the second variant takes the second's. -/
theorem first_match_wins_update_resolution_witness :
    MultiEraUpdate.first_proposed_minfee_a_ab exBothVariantsUpdate = some 7 ∧
    MultiEraUpdate.first_proposed_minfee_a_ab exSecondVariantUpdate = some 9 :=
  ⟨first_match_wins_update_resolution.1 exBothVariantsUpdate 7 rfl,
   first_match_wins_update_resolution.2.1 exSecondVariantUpdate rfl⟩

/-- C8: `get_utxos` is a sparse lookup — every returned pair is a requested
key that is present (and not tombstoned) in the UTXO table with its stored
body; every requested key that is present is returned; missing keys are
simply absent (the function is total, there is no error for them); and the
empty input returns the empty result with zero read transactions opened. -/
theorem get_utxos_sparse_lookup :
    (∀ (st : StoreState) (refs : List TxoRef) (r : TxoRef) (b : UtxoBody),
      (r, b) ∈ (LedgerStore.get_utxos st refs).1 →
      r ∈ refs ∧ st.utxos.lookup r = some (b, false)) ∧
    (∀ (st : StoreState) (refs : List TxoRef) (r : TxoRef) (b : UtxoBody),
      r ∈ refs → st.utxos.lookup r = some (b, false) →
      (r, b) ∈ (LedgerStore.get_utxos st refs).1) ∧
    (∀ st : StoreState, LedgerStore.get_utxos st [] = ([], 0)) := by
  refine ⟨fun st refs r b h => ?_, fun st refs r b hr hl => ?_, fun st => rfl⟩
  · unfold LedgerStore.get_utxos at h
    by_cases he : refs.isEmpty
    · simp [he] at h
    · simp only [he, if_false] at h
      unfold get_sparse at h
      rcases List.mem_filterMap.1 h with ⟨a, ha, hf⟩
      rcases hl : st.utxos.lookup a with _ | ⟨b', flag⟩
      · rw [hl] at hf
        simp at hf
      · rw [hl] at hf
        cases flag with
        | false =>
            simp only [Option.some.injEq, Prod.mk.injEq] at hf
            rcases hf with ⟨rfl, rfl⟩
            exact ⟨ha, hl⟩
        | true => simp at hf
  · have hne : refs.isEmpty = false := by
      cases refs with
      | nil => cases hr
      | cons x xs => rfl
    unfold LedgerStore.get_utxos
    simp only [hne, if_false]
    unfold get_sparse
    exact List.mem_filterMap.2 ⟨r, hr, by rw [hl]⟩

/-- C8 witness: the theorem applied at the concrete example store —
requested key `(1,0)` is present and returned, and the empty request
returns `([], 0)` without a read transaction. -/
theorem get_utxos_sparse_lookup_witness :
    ((1, 0), 10) ∈ (LedgerStore.get_utxos exStore [(1, 0), (9, 9)]).1 ∧
    LedgerStore.get_utxos exStore [] = ([], 0) :=
  ⟨get_utxos_sparse_lookup.2.1 exStore [(1, 0), (9, 9)] (1, 0) 10 (by decide) rfl,
   get_utxos_sparse_lookup.2.2 exStore⟩

/-- Running operations that contain no commit leaves the committed store
untouched. -/
theorem runOps_committed_of_no_commit :
    ∀ (ops : List StoreOp) (s : TxnState),
      (∀ op ∈ ops, op.isCommit = false) → (runOps s ops).committed = s.committed := by
  intro ops
  induction ops with
  | nil => exact fun s _ => rfl
  | cons op rest ih =>
      intro s hall
      have hop := hall op (List.mem_cons_self op rest)
      have hrest : ∀ o ∈ rest, StoreOp.isCommit o = false :=
        fun o ho => hall o (List.mem_cons_of_mem op ho)
      cases op with
      | beginWrite => exact ih _ hrest
      | tableWrite f => exact ih _ hrest
      | commit => simp [StoreOp.isCommit] at hop

/-- Every operation of the program before the final commit is a
`beginWrite` or a `tableWrite`. -/
theorem apply_program_front_no_commit (ext : UtxoBody → List (Nat × Nat))
    (deltas : List LedgerDelta) :
    ∀ op ∈ (StoreOp.beginWrite :: (deltas.map (delta_ops ext)).flatten),
      op.isCommit = false := by
  intro op hop
  rcases List.mem_cons.1 hop with h | h
  · subst h; rfl
  · rcases List.mem_flatten.1 h with ⟨l, hl, hol⟩
    rcases List.mem_map.1 hl with ⟨d, _, rfl⟩
    simp only [delta_ops, List.mem_cons, List.not_mem_nil, or_false] at hol
    rcases hol with h | h | h | h <;> subst h <;> rfl

/-- Executing the per-delta table writes inside an open transaction folds
all delta effects into the pending snapshot and never touches the
committed store. -/
theorem runOps_writes (ext : UtxoBody → List (Nat × Nat)) :
    ∀ (deltas : List LedgerDelta) (c x : StoreState),
      runOps ⟨c, some x⟩ ((deltas.map (delta_ops ext)).flatten) =
        ⟨c, some (deltas.foldl (delta_apply ext) x)⟩ := by
  intro deltas
  induction deltas with
  | nil => exact fun c x => rfl
  | cons d rest ih => exact fun c x => ih c (delta_apply ext x d)

/-- `LedgerStore::apply` commits exactly the pure fold of every delta's
effects over all four tables. -/
theorem apply_eq_foldl (ext : UtxoBody → List (Nat × Nat)) (st : StoreState)
    (deltas : List LedgerDelta) :
    LedgerStore.apply ext st deltas = deltas.foldl (delta_apply ext) st := by
  unfold LedgerStore.apply apply_program
  show (runOps (stepOp ⟨st, none⟩ .beginWrite)
      ((deltas.map (delta_ops ext)).flatten ++ [.commit])).committed = _
  rw [runOps, List.foldl_append]
  have hw := runOps_writes ext deltas st st
  rw [runOps] at hw
  have hstep : stepOp ⟨st, none⟩ .beginWrite = ⟨st, some st⟩ := rfl
  rw [hstep, hw]
  rfl

/-- C4: batch atomicity of `LedgerStore::apply` — the program it executes
opens one write transaction, writes every delta's cursor, UTXO, parameter
and index effects inside it, and contains exactly one commit, as its final
operation; interrupting it at any point before that commit leaves the
observable store (in particular the cursor) exactly as it was, and the full
run commits precisely the fold of all delta effects. -/
theorem apply_batch_atomic (ext : UtxoBody → List (Nat × Nat)) (st : StoreState)
    (deltas : List LedgerDelta) (k : Nat)
    (hk : k < (apply_program ext deltas).length) :
    (runOps ⟨st, none⟩ ((apply_program ext deltas).take k)).committed = st ∧
    store_cursor ((runOps ⟨st, none⟩ ((apply_program ext deltas).take k)).committed) =
      store_cursor st ∧
    LedgerStore.apply ext st deltas = deltas.foldl (delta_apply ext) st ∧
    (apply_program ext deltas).countP StoreOp.isCommit = 1 := by
  have hsplit : apply_program ext deltas =
      (StoreOp.beginWrite :: (deltas.map (delta_ops ext)).flatten) ++ [.commit] := by
    simp [apply_program]
  have hlen : k ≤ (StoreOp.beginWrite :: (deltas.map (delta_ops ext)).flatten).length := by
    rw [hsplit] at hk
    rw [List.length_append] at hk
    simp only [List.length_cons, List.length_nil] at hk ⊢
    omega
  have htake : (apply_program ext deltas).take k =
      (StoreOp.beginWrite :: (deltas.map (delta_ops ext)).flatten).take k := by
    rw [hsplit, List.take_append_of_le_length hlen]
  have hnc : ∀ op ∈ (apply_program ext deltas).take k, op.isCommit = false := by
    intro op hop
    rw [htake] at hop
    exact apply_program_front_no_commit ext deltas op (List.take_subset _ _ hop)
  have h1 : (runOps ⟨st, none⟩ ((apply_program ext deltas).take k)).committed = st :=
    runOps_committed_of_no_commit _ _ hnc
  refine ⟨h1, by rw [h1], apply_eq_foldl ext st deltas, ?_⟩
  rw [hsplit, List.countP_append]
  have hz : (StoreOp.beginWrite :: (deltas.map (delta_ops ext)).flatten).countP
      StoreOp.isCommit = 0 :=
    List.countP_eq_zero.2 (by
      intro a ha
      simp [apply_program_front_no_commit ext deltas a ha])
  rw [hz]
  rfl

/-- C4 witness: the theorem applied at a concrete one-delta batch,
interrupted after three of its six operations. -/
theorem apply_batch_atomic_witness :
    (runOps ⟨exStore, none⟩ ((apply_program exExt [exDelta]).take 3)).committed =
      exStore :=
  (apply_batch_atomic exExt exStore [exDelta] 3 (by decide)).1

/-- Peeling one update off `lastProposedD`: the head update's proposal, if
present, becomes the fallback for the rest of the list. -/
theorem lastProposedD_cons (acc : MultiEraUpdate → Option α) (u : MultiEraUpdate)
    (us : List MultiEraUpdate) (v : α) :
    lastProposedD acc (u :: us) v = lastProposedD acc us ((acc u).getD v) := by
  unfold lastProposedD
  cases h : acc u with
  | none => simp [List.filterMap_cons, h]
  | some a => simp [List.filterMap_cons, h, List.getLast?_cons]

/-- Folding Byron updates realizes the per-field last-write-wins record. -/
theorem foldl_update_byron (us : List MultiEraUpdate) (p : ByronProtParams) :
    us.foldl update_byron_pparams p = spec_byron_lww us p := by
  induction us generalizing p with
  | nil => rfl
  | cons u us ih =>
      rw [List.foldl_cons, ih]
      rcases hbv : u.byron_proposed_block_version with _ | bv <;>
      rcases hfp : u.byron_proposed_fee_policy with _ | fp <;>
      (try cases fp) <;>
      rcases hmt : u.byron_proposed_max_tx_size with _ | mt <;>
        simp [spec_byron_lww, update_byron_pparams, byron_fee_pol_v0,
          lastProposedD_cons, hbv, hfp, hmt]

/-- Folding Shelley updates realizes the per-field last-write-wins record. -/
theorem foldl_update_shelley (us : List MultiEraUpdate) (p : ShelleyProtParams) :
    us.foldl update_shelley_pparams p = spec_shelley_lww us p := by
  induction us generalizing p with
  | nil => rfl
  | cons u us ih =>
      rw [List.foldl_cons, ih]
      simp only [spec_shelley_lww, update_shelley_pparams, lastProposedD_cons]

/-- Folding Alonzo updates realizes the per-field last-write-wins record. -/
theorem foldl_update_alonzo (us : List MultiEraUpdate) (p : AlonzoProtParams) :
    us.foldl update_alonzo_pparams p = spec_alonzo_lww us p := by
  induction us generalizing p with
  | nil => rfl
  | cons u us ih =>
      rw [List.foldl_cons, ih]
      simp only [spec_alonzo_lww, update_alonzo_pparams, lastProposedD_cons]

/-- Folding Babbage updates realizes the per-field last-write-wins record. -/
theorem foldl_update_babbage (us : List MultiEraUpdate) (p : BabbageProtParams) :
    us.foldl update_babbage_pparams p = spec_babbage_lww us p := by
  induction us generalizing p with
  | nil => rfl
  | cons u us ih =>
      rw [List.foldl_cons, ih]
      simp only [spec_babbage_lww, update_babbage_pparams, lastProposedD_cons]

/-- Folding Conway updates realizes the per-field last-write-wins record. -/
theorem foldl_update_conway (us : List MultiEraUpdate) (p : ConwayProtParams) :
    us.foldl update_conway_pparams p = spec_conway_lww us p := by
  induction us generalizing p with
  | nil => rfl
  | cons u us ih =>
      rw [List.foldl_cons, ih]
      simp only [spec_conway_lww, update_conway_pparams, lastProposedD_cons]

/-- Folding `apply_param_update` from a Byron state stays in the Byron
variant and folds the Byron field updates. -/
theorem foldl_apply_byron (us : List MultiEraUpdate) (p : ByronProtParams) :
    us.foldl apply_param_update (.byron p) =
      .byron (us.foldl update_byron_pparams p) := by
  induction us generalizing p with
  | nil => rfl
  | cons u us ih => exact ih (update_byron_pparams p u)

/-- Folding `apply_param_update` from a Shelley state stays in the Shelley
variant and folds the Shelley field updates. -/
theorem foldl_apply_shelley (us : List MultiEraUpdate) (p : ShelleyProtParams) :
    us.foldl apply_param_update (.shelley p) =
      .shelley (us.foldl update_shelley_pparams p) := by
  induction us generalizing p with
  | nil => rfl
  | cons u us ih => exact ih (update_shelley_pparams p u)

/-- Folding `apply_param_update` from an Alonzo state stays in the Alonzo
variant and folds the Alonzo field updates. -/
theorem foldl_apply_alonzo (us : List MultiEraUpdate) (p : AlonzoProtParams) :
    us.foldl apply_param_update (.alonzo p) =
      .alonzo (us.foldl update_alonzo_pparams p) := by
  induction us generalizing p with
  | nil => rfl
  | cons u us ih => exact ih (update_alonzo_pparams p u)

/-- Folding `apply_param_update` from a Babbage state stays in the Babbage
variant and folds the Babbage field updates. -/
theorem foldl_apply_babbage (us : List MultiEraUpdate) (p : BabbageProtParams) :
    us.foldl apply_param_update (.babbage p) =
      .babbage (us.foldl update_babbage_pparams p) := by
  induction us generalizing p with
  | nil => rfl
  | cons u us ih => exact ih (update_babbage_pparams p u)

/-- Folding `apply_param_update` from a Conway state stays in the Conway
variant and folds the Conway field updates. -/
theorem foldl_apply_conway (us : List MultiEraUpdate) (p : ConwayProtParams) :
    us.foldl apply_param_update (.conway p) =
      .conway (us.foldl update_conway_pparams p) := by
  induction us generalizing p with
  | nil => rfl
  | cons u us ih => exact ih (update_conway_pparams p u)

/-- C6: within one epoch the fold applies the epoch's updates (the
arrival-order filtered list, as in `fold_pparams`) left to right, and for
every era variant the resulting record equals, field by field, the
last-write-wins outcome: each field proposed by one or more updates of the
epoch takes the value of the last proposing update in arrival order, and
every other field keeps its prior value. -/
theorem same_epoch_updates_last_write_wins (updates : List MultiEraUpdate)
    (ep : Nat) (pb : ByronProtParams) (ps : ShelleyProtParams)
    (pa : AlonzoProtParams) (pbb : BabbageProtParams) (pc : ConwayProtParams) :
    ((updates.filter (fun u => u.epoch == ep)).foldl apply_param_update (.byron pb) =
      .byron (spec_byron_lww (updates.filter (fun u => u.epoch == ep)) pb)) ∧
    ((updates.filter (fun u => u.epoch == ep)).foldl apply_param_update (.shelley ps) =
      .shelley (spec_shelley_lww (updates.filter (fun u => u.epoch == ep)) ps)) ∧
    ((updates.filter (fun u => u.epoch == ep)).foldl apply_param_update (.alonzo pa) =
      .alonzo (spec_alonzo_lww (updates.filter (fun u => u.epoch == ep)) pa)) ∧
    ((updates.filter (fun u => u.epoch == ep)).foldl apply_param_update (.babbage pbb) =
      .babbage (spec_babbage_lww (updates.filter (fun u => u.epoch == ep)) pbb)) ∧
    ((updates.filter (fun u => u.epoch == ep)).foldl apply_param_update (.conway pc) =
      .conway (spec_conway_lww (updates.filter (fun u => u.epoch == ep)) pc)) :=
  ⟨by rw [foldl_apply_byron, foldl_update_byron],
   by rw [foldl_apply_shelley, foldl_update_shelley],
   by rw [foldl_apply_alonzo, foldl_update_alonzo],
   by rw [foldl_apply_babbage, foldl_update_babbage],
   by rw [foldl_apply_conway, foldl_update_conway]⟩

/-- `getLastD` of a non-empty `range'` is its last element. -/
theorem getLastD_range' :
    ∀ (n lo d : Nat), 0 < n → (List.range' lo n).getLastD d = lo + n - 1 := by
  intro n
  induction n with
  | zero => exact fun lo d h => absurd h (Nat.lt_irrefl 0)
  | succ n ih =>
      intro lo d _
      rw [List.range'_succ, List.getLastD_cons]
      cases n with
      | zero => simp
      | succ m =>
          rw [ih (lo + 1) lo (Nat.succ_pos m)]
          omega

/-- An inclusive range with its upper bound below its lower bound is
empty. -/
theorem rangeIncl_eq_nil (lo hi : Nat) (h : hi < lo) : rangeIncl lo hi = [] := by
  unfold rangeIncl
  have hz : hi + 1 - lo = 0 := by omega
  rw [hz]
  rfl

/-- `getLastD` of a non-empty inclusive range is its upper bound. -/
theorem rangeIncl_getLastD (lo hi d : Nat) (h : lo ≤ hi) :
    (rangeIncl lo hi).getLastD d = hi := by
  unfold rangeIncl
  rw [getLastD_range' (hi + 1 - lo) lo d (by omega)]
  omega

/-- Two adjacent inclusive ranges concatenate. -/
theorem rangeIncl_append (a b c : Nat) (h1 : a ≤ b) (h2 : b ≤ c) :
    rangeIncl (a + 1) b ++ rangeIncl (b + 1) c = rangeIncl (a + 1) c := by
  unfold rangeIncl
  have hb : b + 1 - (a + 1) = b - a := by omega
  have hc : c + 1 - (b + 1) = c - b := by omega
  have hca : c + 1 - (a + 1) = (c - b) + (b - a) := by omega
  have hstart : b + 1 = (a + 1) + (b - a) := by omega
  rw [hb, hc, hca, hstart]
  exact List.range'_append_1 (a + 1) (b - a) (c - b)

/-- `hfVersions` distributes over concatenation. -/
theorem hfVersions_append (t1 t2 : List FoldEvent) :
    hfVersions (t1 ++ t2) = hfVersions t1 ++ hfVersions t2 :=
  List.filterMap_append t1 t2 _

/-- Update events carry no hard-fork versions. -/
theorem hfVersions_map_upd (ep : Nat) (l : List MultiEraUpdate) :
    hfVersions (l.map (fun _ => FoldEvent.upd ep)) = [] := by
  induction l with
  | nil => rfl
  | cons x xs ih => simp [hfVersions, List.filterMap_cons, ih]

/-- A successful hard-fork phase over a version list takes exactly those
steps in order: the trace's versions are the list, the final
`last_protocol` is the list's last element (or unchanged when empty), and
every event is a hard-fork step of the current epoch. -/
theorem run_hardforks_ok (g : Genesis) (ep : Nat) :
    ∀ (vs : List Nat) (p : MultiEraProtocolParameters) (last : Nat)
      (st : MultiEraProtocolParameters × Nat) (tr : List FoldEvent),
      run_hardforks g ep vs p last = .ok (st, tr) →
      hfVersions tr = vs ∧ st.2 = vs.getLastD last ∧
        ∀ ev ∈ tr, ∃ n, ev = FoldEvent.hf ep n := by
  intro vs
  induction vs with
  | nil =>
      intro p last st tr h
      simp only [run_hardforks] at h
      cases h
      exact ⟨rfl, rfl, fun ev hev => absurd hev (List.not_mem_nil ev)⟩
  | cons v rest ih =>
      intro p last st tr h
      simp only [run_hardforks] at h
      rcases hadv : advance_hardfork p g v with m | p2
      · simp only [hadv] at h
        exact PanicOr.noConfusion h
      · simp only [hadv] at h
        rcases hrec : run_hardforks g ep rest p2 v with m | st0tr
        · simp only [hrec] at h
          exact PanicOr.noConfusion h
        · obtain ⟨st0, tr0⟩ := st0tr
          simp only [hrec] at h
          simp only [PanicOr.ok.injEq, Prod.mk.injEq] at h
          obtain ⟨hst, htr⟩ := h
          subst hst
          subst htr
          obtain ⟨h1, h2, h3⟩ := ih p2 v st0 tr0 hrec
          refine ⟨?_, ?_, ?_⟩
          · simp [hfVersions, List.filterMap_cons] at h1 ⊢
            exact h1
          · rw [List.getLastD_cons]
            exact h2
          · intro ev hev
            rcases List.mem_cons.1 hev with rfl | hev
            · exact ⟨v, rfl⟩
            · exact h3 ev hev

/-- A successful epoch step takes exactly the hard-fork catch-up from
`last + 1` to its final `last_protocol` (a consecutive inclusive range),
never decreases `last_protocol`, stamps every event with the current epoch,
and places all hard-fork events before all update events. -/
theorem run_epoch_ok (g : Genesis) (us : List MultiEraUpdate) (ep : Nat)
    (p : MultiEraProtocolParameters) (last : Nat)
    (st : MultiEraProtocolParameters × Nat) (tr : List FoldEvent)
    (h : run_epoch g us ep p last = .ok (st, tr)) :
    hfVersions tr = rangeIncl (last + 1) st.2 ∧ last ≤ st.2 ∧
      (∀ ev ∈ tr, eventEpoch ev = ep) ∧
      ∃ t1 t2, tr = t1 ++ t2 ∧ (∀ ev ∈ t1, ev.isHf = true) ∧
        ∀ ev ∈ t2, ev.isHf = false := by
  unfold run_epoch at h
  rcases hrh : run_hardforks g ep (rangeIncl (last + 1) p.protocol_version) p last
    with m | ⟨⟨p2, l2⟩, tr1⟩
  · simp only [hrh] at h
    exact PanicOr.noConfusion h
  · simp only [hrh] at h
    cases h
    obtain ⟨h1, h2, h3⟩ := run_hardforks_ok g ep _ p last (p2, l2) tr1 hrh
    simp only at h2
    have hver : hfVersions (tr1 ++ (us.filter (fun u => u.epoch == ep)).map
        (fun _ => FoldEvent.upd ep)) = hfVersions tr1 := by
      rw [hfVersions_append, hfVersions_map_upd, List.append_nil]
    have hl2 : (last + 1 ≤ p.protocol_version ∧ l2 = p.protocol_version) ∨
        (l2 = last ∧ p.protocol_version < last + 1) := by
      by_cases hle : last + 1 ≤ p.protocol_version
      · rw [rangeIncl_getLastD _ _ _ hle] at h2
        exact .inl ⟨hle, h2⟩
      · rw [rangeIncl_eq_nil _ _ (by omega)] at h2
        rw [List.getLastD_nil] at h2
        exact .inr ⟨h2, by omega⟩
    refine ⟨?_, ?_, ?_, tr1, _, rfl, ?_, ?_⟩
    · rw [hver, h1]
      rcases hl2 with ⟨hle, hl2⟩ | ⟨hl2, hlt⟩
      · rw [hl2]
      · rw [hl2, rangeIncl_eq_nil _ _ (by omega), rangeIncl_eq_nil _ _ (by omega)]
    · rcases hl2 with ⟨hle, hl2⟩ | ⟨hl2, _⟩ <;> omega
    · intro ev hev
      rcases List.mem_append.1 hev with hev | hev
      · obtain ⟨n, rfl⟩ := h3 ev hev
        rfl
      · obtain ⟨u, _, rfl⟩ := List.mem_map.1 hev
        rfl
    · intro ev hev
      obtain ⟨n, rfl⟩ := h3 ev hev
      rfl
    · intro ev hev
      obtain ⟨u, _, rfl⟩ := List.mem_map.1 hev
      rfl

/-- The empty trace is phase ordered. -/
theorem phaseOrdered_nil : phaseOrdered [] := by
  intro i j a b v _ hi _
  simp at hi

/-- A block of hard-fork events followed by a block of update events is
phase ordered (vacuously: no update precedes a hard-fork step). -/
theorem phaseOrdered_hf_then_upd (t1 t2 : List FoldEvent)
    (h1 : ∀ ev ∈ t1, ev.isHf = true) (h2 : ∀ ev ∈ t2, ev.isHf = false) :
    phaseOrdered (t1 ++ t2) := by
  intro i j a b v hij hi hj
  exfalso
  rw [List.getElem?_append] at hi hj
  by_cases hi1 : i < t1.length
  · rw [if_pos hi1] at hi
    have := h1 _ (List.getElem?_mem hi)
    simp [FoldEvent.isHf] at this
  · rw [if_neg hi1] at hi
    have hj1 : ¬ j < t1.length := by omega
    rw [if_neg hj1] at hj
    have := h2 _ (List.getElem?_mem hj)
    simp [FoldEvent.isHf] at this

/-- Phase ordering is preserved by concatenation when every update event of
the first block belongs to a strictly earlier epoch than every hard-fork
event of the second block. -/
theorem phaseOrdered_append (t1 t2 : List FoldEvent)
    (h1 : phaseOrdered t1) (h2 : phaseOrdered t2)
    (hcross : ∀ a, FoldEvent.upd a ∈ t1 → ∀ b v, FoldEvent.hf b v ∈ t2 → a < b) :
    phaseOrdered (t1 ++ t2) := by
  intro i j a b v hij hi hj
  rw [List.getElem?_append] at hi hj
  by_cases hi1 : i < t1.length
  · rw [if_pos hi1] at hi
    by_cases hj1 : j < t1.length
    · rw [if_pos hj1] at hj
      exact h1 i j a b v hij hi hj
    · rw [if_neg hj1] at hj
      exact hcross a (List.getElem?_mem hi) b v (List.getElem?_mem hj)
  · rw [if_neg hi1] at hi
    have hj1 : ¬ j < t1.length := by omega
    rw [if_neg hj1] at hj
    exact h2 (i - t1.length) (j - t1.length) a b v (by omega) hi hj

/-- A successful run of the epoch loop starting at epoch `ep` takes exactly
the consecutive hard-fork steps from `last + 1` to its final
`last_protocol`, never decreases it, stamps every event with an epoch
at least `ep`, and keeps each epoch's hard-fork phase before its update
phase. -/
theorem run_epochs_ok (g : Genesis) (us : List MultiEraUpdate) :
    ∀ (r ep : Nat) (p : MultiEraProtocolParameters) (last : Nat)
      (st : MultiEraProtocolParameters × Nat) (tr : List FoldEvent),
      run_epochs g us ep r p last = .ok (st, tr) →
      hfVersions tr = rangeIncl (last + 1) st.2 ∧ last ≤ st.2 ∧
        (∀ ev ∈ tr, ep ≤ eventEpoch ev) ∧ phaseOrdered tr := by
  intro r
  induction r with
  | zero =>
      intro ep p last st tr h
      simp only [run_epochs] at h
      simp only [PanicOr.ok.injEq, Prod.mk.injEq] at h
      obtain ⟨hst, htr⟩ := h
      subst htr
      refine ⟨?_, ?_, fun ev hev => absurd hev (List.not_mem_nil ev), phaseOrdered_nil⟩
      · rw [← hst, rangeIncl_eq_nil (last + 1) last (by omega)]
        rfl
      · rw [← hst]
  | succ r ih =>
      intro ep p last st tr h
      simp only [run_epochs] at h
      rcases hre : run_epoch g us ep p last with m | st1tr
      · simp only [hre] at h
        exact PanicOr.noConfusion h
      · obtain ⟨⟨p2, l2⟩, tr1⟩ := st1tr
        simp only [hre] at h
        rcases hres : run_epochs g us (ep + 1) r p2 l2 with m | st2tr
        · simp only [hres] at h
          exact PanicOr.noConfusion h
        · obtain ⟨st2, tr2⟩ := st2tr
          simp only [hres] at h
          simp only [PanicOr.ok.injEq, Prod.mk.injEq] at h
          obtain ⟨hst, htr⟩ := h
          subst hst
          subst htr
          obtain ⟨e1, e2, e3, t1, t2, heq, ht1, ht2⟩ :=
            run_epoch_ok g us ep p last (p2, l2) tr1 hre
          obtain ⟨f1, f2, f3, f4⟩ := ih (ep + 1) p2 l2 st2 tr2 hres
          simp only at e1 e2
          refine ⟨?_, by omega, ?_, ?_⟩
          · rw [hfVersions_append, e1, f1]
            exact rangeIncl_append last l2 st2.2 e2 f2
          · intro ev hev
            rcases List.mem_append.1 hev with hev | hev
            · exact le_of_eq (e3 ev hev).symm
            · exact le_trans (Nat.le_succ ep) (f3 ev hev)
          · refine phaseOrdered_append tr1 tr2 ?_ f4 ?_
            · rw [heq]
              exact phaseOrdered_hf_then_upd t1 t2 ht1 ht2
            · intro a ha b v hb
              have hae := e3 _ ha
              have hbe := f3 _ hb
              simp [eventEpoch] at hae hbe
              omega

/-- C3: on any successful fold, the trace of hard-fork steps is exactly the
consecutive protocol versions 1, 2, ... — the version advanced by the fold
is non-decreasing and never skips a step — and the trace is phase ordered:
within each epoch every hard-fork step (the full catch-up, across several
consecutive era transitions if needed) happens before any of that epoch's
update applications. -/
theorem fold_hardfork_catchup_monotone (g : Genesis) (us : List MultiEraUpdate)
    (e : Nat) (p : MultiEraProtocolParameters) (tr : List FoldEvent)
    (h : fold_pparams_t g us e = .ok (p, tr)) :
    hfVersions tr = List.range' 1 (hfVersions tr).length ∧ phaseOrdered tr := by
  cases us with
  | nil =>
      simp only [fold_pparams_t] at h
      exact PanicOr.noConfusion h
  | cons u rest =>
      simp only [fold_pparams_t] at h
      rcases hres : run_epochs g (u :: rest) 0 e (initial_pparams g u) 0
        with m | st2tr
      · simp only [hres] at h
        exact PanicOr.noConfusion h
      · obtain ⟨⟨p2, l2⟩, tr2⟩ := st2tr
        simp only [hres] at h
        simp only [PanicOr.ok.injEq, Prod.mk.injEq] at h
        obtain ⟨hp, htr⟩ := h
        subst hp
        subst htr
        obtain ⟨f1, _, _, f4⟩ :=
          run_epochs_ok g (u :: rest) e 0 (initial_pparams g u) 0 ((p2, l2), tr2).1 tr2 hres
        refine ⟨?_, f4⟩
        rw [f1]
        unfold rangeIncl
        rw [List.length_range']

/-- C3 witness: the theorem applied at a concrete fold (one Byron update
proposing block version 1 at epoch 0, folded to epoch 2), whose trace is
one update application at epoch 0 followed by one hard-fork step at
epoch 1. -/
theorem fold_hardfork_catchup_monotone_witness :
    hfVersions [FoldEvent.upd 0, FoldEvent.hf 1 1] =
      List.range' 1 (hfVersions [FoldEvent.upd 0, FoldEvent.hf 1 1]).length ∧
    phaseOrdered [FoldEvent.upd 0, FoldEvent.hf 1 1] :=
  fold_hardfork_catchup_monotone exGenesis [exByronVersionUpdate] 2 _ _ rfl

end Dolos
